import Mathlib

/-!
Verification development for the biodata-assistant outreach engine.

This file gives a shallow embedding, in Lean 4, of the outreach lifecycle,
webhook reconciliation, lead-scoring and queue-processing code of the
repository (backend/app), and settles a list of claims about it.

Conventions of the embedding:
* Database rows (`OutreachRequest`, `Lead`) become Lean structures; the
  database session becomes an explicit `DB` value threaded through the
  operations; SQLAlchemy `query(...).filter(...).first()` becomes
  `List.find?` over the row list (rows are kept in insertion order, matching
  SQLite's default row order for unordered queries).
* Python enum *attribute access* is modelled explicitly: `OutreachStatus`
  in `app/models/enums.py` is a `str` Enum with exactly six members, and
  Python raises `AttributeError` for any other member access
  (`OutreachStatus.SENDING`, `OutreachStatus.FAILED`).  `OutreachStatus.attr`
  returns `Option OutreachStatus` and `OutreachStatus.getValue` returns
  `Except PyErr String`, mirroring that behaviour.
* Timestamps are naturals (seconds since the epoch); `datetime.utcnow()`
  becomes an explicit `now : Nat` parameter.  An ISO timestamp string that
  may or may not parse is modelled by `TsStr` (either `valid t` or
  `invalid`).
* Python `float` values produced by the scoring pipeline are modelled as
  IEEE-754 binary64 values, represented exactly as `Nat` numerators at the
  fixed scale `2^60` (every double arising in the pipeline lies in
  `[0, 2]` and is an integer multiple of `2^(-60)`); `fadd` is float
  addition with round-to-nearest, ties-to-even, and `dblF p q` is the
  binary64 double nearest to the rational `p/q` (used for the decimal
  literals `0.2`, `0.1`, `0.05`, `1.0` of the source).
* External collaborators that the spec explicitly excludes (the mailer
  client, persona selection and e-mail template rendering, the HMAC
  primitive) are passed in as an explicit `Ext` record of functions;
  theorems quantify over them, so nothing about them is assumed.
-/

namespace Biodata

/-- Python exception values that the embedded code can raise. -/
inductive PyErr where
  | attributeError (cls : String) (attrName : String)
  | other (msg : String)
deriving DecidableEq, Repr

/-! ## Enums (app/models/enums.py)

`OutreachStatus` is the *complete* enum of the source file: it defines
DRAFT, QUEUED, SENT, DELIVERED, REPLIED, CLOSED and nothing else.  In
particular there is no SENDING and no FAILED member, although other modules
refer to `OutreachStatus.SENDING` / `OutreachStatus.FAILED`. -/

inductive OutreachStatus where
  | draft | queued | sent | delivered | replied | closed
deriving DecidableEq, Repr

/-- String value of each `OutreachStatus` member (the `str` Enum values). -/
def OutreachStatus.value : OutreachStatus → String
  | .draft => "draft"
  | .queued => "queued"
  | .sent => "sent"
  | .delivered => "delivered"
  | .replied => "replied"
  | .closed => "closed"

/-- Python attribute access `OutreachStatus.<NAME>`: `some` member for the six
defined names, `none` (an `AttributeError`) for anything else, including
`SENDING` and `FAILED`. -/
def OutreachStatus.attr : String → Option OutreachStatus
  | "DRAFT" => some .draft
  | "QUEUED" => some .queued
  | "SENT" => some .sent
  | "DELIVERED" => some .delivered
  | "REPLIED" => some .replied
  | "CLOSED" => some .closed
  | _ => none

/-- Evaluation of the Python expression `OutreachStatus.<NAME>.value`:
either the string value, or the raised `AttributeError`. -/
def OutreachStatus.getValue (n : String) : Except PyErr String :=
  match OutreachStatus.attr n with
  | some s => .ok s.value
  | none => .error (.attributeError "OutreachStatus" n)

/-- The six persisted status strings of the enum. -/
def allowedStatusValues : List String :=
  ["draft", "queued", "sent", "delivered", "replied", "closed"]

/-- Modelled from the spec: the `LeadStage` enum is referenced throughout the
source (`from app.models.enums import LeadStage`, `lead.stage` values) but no
definition of it exists anywhere under the repository sources; only its
callers are present.  Spec section 3 gives its members: stage enum
{NEW, ENRICHED, CONTACTED, REPLIED}.  Values follow the lowercase convention
of every other enum in `enums.py` and the `stage` column default `"new"`. -/
inductive LeadStage where
  | new | enriched | contacted | replied
deriving DecidableEq, Repr

/-- String value of each `LeadStage` member. -/
def LeadStage.value : LeadStage → String
  | .new => "new"
  | .enriched => "enriched"
  | .contacted => "contacted"
  | .replied => "replied"

/-! ## Rows and database state (app/models/database.py) -/

/-- One `outreach_requests` row.  Optional columns are `Option`; timestamps
are epoch seconds. -/
structure OutreachRec where
  id : String
  dataset_id : Option String
  requester_email : String
  requester_name : String
  contact_email : String
  contact_name : String
  status : String
  email_subject : String
  email_body : String
  thread_id : Option String
  message_id : Option String
  approval_required : Bool
  approved_at : Option Nat
  approved_by : Option String
  sent_at : Option Nat
  replied_at : Option Nat
  created_at : Nat
deriving DecidableEq, Repr

/-- One `leads` row (the columns the embedded operations read or write). -/
structure LeadRec where
  id : String
  repo : String
  issue_title : String
  user_login : String
  email : Option String
  stage : String
deriving DecidableEq, Repr

/-- The database state threaded through every operation. -/
structure DB where
  outreach : List OutreachRec
  leads : List LeadRec
deriving DecidableEq, Repr

/-- In-place mutation of the outreach row with primary key `oid` followed by
a commit (primary keys are unique, so at most one row changes). -/
def DB.updateOutreach (db : DB) (oid : String) (f : OutreachRec → OutreachRec) : DB :=
  { db with outreach := db.outreach.map (fun r => if r.id = oid then f r else r) }

/-- In-place mutation of the lead row with primary key `lid`. -/
def DB.updateLead (db : DB) (lid : String) (f : LeadRec → LeadRec) : DB :=
  { db with leads := db.leads.map (fun l => if l.id = lid then f l else l) }

/-- Python truthiness filter for an optional string: `None` and `""` are
falsy, everything else is kept. -/
def truthy : Option String → Option String
  | some "" => none
  | x => x

/-- Python `a or b` on two optional strings, as used for
`payload.get(x) or payload.get(y)` chains: the first truthy value, if any. -/
def orF (a b : Option String) : Option String :=
  match truthy a with
  | some v => some v
  | none => truthy b

/-! ## Float model for the scoring pipeline

A Python `float` is an IEEE-754 binary64 value.  Every float arising in
`calculate_novice_score` lies in `[0, 1.05]` and is therefore an exact
integer multiple of `2^(-60)`; we represent such a value by its numerator at
scale `2^60` (a `Nat`).  `fadd` performs binary64 addition: the exact sum,
rounded to 53 significant bits with round-to-nearest, ties-to-even. -/

/-- Fuel-driven bit length (`bitlenGo 400` covers every number below `2^400`,
far beyond anything the pipeline produces). -/
def bitlenGo : Nat → Nat → Nat
  | 0, _ => 0
  | f+1, n => if n = 0 then 0 else bitlenGo f (n / 2) + 1

/-- Number of binary digits of `n`. -/
def bitlen (n : Nat) : Nat := bitlenGo 400 n

/-- Round `n` to a multiple of `2^k`, round-to-nearest with ties-to-even. -/
def rneShift (n k : Nat) : Nat :=
  if k = 0 then n else
  let q := n / 2^k
  let r := n % 2^k
  let half := 2^(k-1)
  let qr := if r < half then q else if half < r then q + 1 else if q % 2 = 0 then q else q + 1
  qr * 2^k

/-- Round a (scaled) exact value to 53 significant bits: binary64 rounding
for the magnitude range of the scoring pipeline. -/
def round53 (n : Nat) : Nat :=
  let bl := bitlen n
  if bl ≤ 53 then n else rneShift n (bl - 53)

/-- Binary64 addition of two non-negative doubles at scale `2^60`. -/
def fadd (a b : Nat) : Nat := round53 (a + b)

/-- Round `a / q` to the nearest integer, ties-to-even. -/
def rneDivNat (a q : Nat) : Nat :=
  let t := a / q
  let r := a % q
  if 2*r < q then t else if q < 2*r then t+1 else if t % 2 = 0 then t else t+1

/-- The binary64 double nearest to the rational `p/q`, at scale `2^60`
(defined for magnitudes in `[2^(-8), 2^52]`, which covers every decimal
literal of the scoring code).  The binade exponent `e = eN - 100` satisfies
`2^e ≤ p/q < 2^(e+1)`; the significand is `p/q / 2^(e-52)` rounded to an
integer, ties-to-even. -/
def dblF (p q : Nat) : Nat :=
  if p = 0 then 0 else
  match ((List.range 201).find? (fun eN => decide (q * 2^eN ≤ p * 2^100 ∧ p * 2^100 < q * 2^(eN+1)))) with
  | none => 0
  | some eN =>
    if eN ≤ 152 ∧ 92 ≤ eN then
      rneDivNat (p * 2^(152 - eN)) q * 2^(eN - 92)
    else 0

/-! ## Scoring pipeline (app/utils/scoring.py) -/

/-- The signal bag consumed by `calculate_novice_score`.  Numeric identity
signals are integers in this codebase (day counts, follower counts, repo
counts, `len()` of the body), absent or non-numeric values are `none`;
`code_blocks_present` and `punctuation_excess` are tri-state
(`True`/`False`/`None`). -/
structure Signals where
  account_age_days : Option Int
  followers : Option Int
  public_repos : Option Int
  keywords : List String
  code_blocks_present : Option Bool
  labels : List String
  issue_body_length : Option Int
  punctuation_excess : Option Bool
deriving DecidableEq, Repr

/-- The novice-label vocabulary of `calculate_novice_score`. -/
def noviceLabels : List String :=
  ["question", "help wanted", "usage", "documentation", "beginner"]

/-- `calculate_novice_score` (scoring.py, lines 115-169), with Python float
accumulation modelled exactly (`fadd` = binary64 `+`, `dblF` = the decimal
literals).  Returns the final double at scale `2^60`. -/
def calculate_novice_score (s : Signals) : Nat :=
  let score : Nat := 0
  let score := match s.account_age_days with
    | some a => if a < 365 then fadd score (dblF 1 5) else score
    | none => score
  let score := match s.followers with
    | some n => if n < 5 then fadd score (dblF 1 5) else score
    | none => score
  let score := match s.public_repos with
    | some n => if n < 5 then fadd score (dblF 1 10) else score
    | none => score
  let score := if s.keywords.length > 0 then fadd score (dblF 1 5) else score
  let score := if s.code_blocks_present = some false then fadd score (dblF 1 10) else score
  let score := if s.labels.any (fun l => noviceLabels.contains l) then fadd score (dblF 1 10) else score
  let score := match s.issue_body_length with
    | some n => if n < 400 then fadd score (dblF 1 10) else score
    | none => score
  let score := if s.punctuation_excess = some true then fadd score (dblF 1 20) else score
  max 0 (min (dblF 1 1) score)

/-- The spec's exact-arithmetic reading of the same formula (spec section
4.3), written over exact rationals at scale `100` (so `0.2 = 20`,
`0.1 = 10`, `0.05 = 5`, clamped to `[0, 100]`).  This follows the spec's
words and is compared against `calculate_novice_score` (which follows the
source). -/
def novice_score_exact_x100 (s : Signals) : Nat :=
  let c1 := match s.account_age_days with
    | some a => if a < 365 then 20 else 0
    | none => 0
  let c2 := match s.followers with
    | some n => if n < 5 then 20 else 0
    | none => 0
  let c3 := match s.public_repos with
    | some n => if n < 5 then 10 else 0
    | none => 0
  let c4 := if s.keywords.length > 0 then 20 else 0
  let c5 := if s.code_blocks_present = some false then 10 else 0
  let c6 := if s.labels.any (fun l => noviceLabels.contains l) then 10 else 0
  let c7 := match s.issue_body_length with
    | some n => if n < 400 then 10 else 0
    | none => 0
  let c8 := if s.punctuation_excess = some true then 5 else 0
  min 100 (c1 + c2 + c3 + c4 + c5 + c6 + c7 + c8)

/-- The concrete signal bag of claim C8 / spec section 8: account_age 90,
followers 2, public_repos 1, keywords ["help"], code_blocks false,
labels ["question"], body length 120, punctuation_excess false. -/
def signalsC8 : Signals :=
  { account_age_days := some 90
    followers := some 2
    public_repos := some 1
    keywords := ["help"]
    code_blocks_present := some false
    labels := ["question"]
    issue_body_length := some 120
    punctuation_excess := some false }

/-- C8, counterexample.  On the claim's concrete input the code's score is
the double `(2^53 - 1) / 2^53 = 0.9999999999999999` (at scale `2^60`:
`9007199254740991 * 2^7`), one unit in the last place below `1.0`; it is NOT
exactly `1.0` as the claim states, because the Python float additions
`0.7 + 0.1`, `0.8 + 0.1`, `0.9 + 0.1` each round downward. -/
theorem novice_score_C8_input_not_one :
    calculate_novice_score signalsC8 = 9007199254740991 * 2^7 ∧
    calculate_novice_score signalsC8 ≠ dblF 1 1 := by
  constructor
  · decide
  · decide

/-- C8, amended.  The novice score is clamp01 of the *binary64
floating-point* left-to-right sum of the claimed contributions (0.2 for
account_age < 365, 0.2 for followers < 5, 0.1 for public_repos < 5, 0.2 for
a keyword match, 0.1 for explicitly absent code blocks, 0.1 for a novice
label, 0.1 for body length < 400, 0.05 for punctuation excess; unknown
values contribute 0).  On the claim's concrete input the exact-arithmetic
sum of the triggered contributions is `1.0` (100 at scale 100), but the
float score is `(2^53 - 1) / 2^53`, one ulp below `1.0`; the score is
always at most the double `1.0`. -/
theorem novice_score_float_vs_exact :
    novice_score_exact_x100 signalsC8 = 100 ∧
    calculate_novice_score signalsC8 = 9007199254740991 * 2^7 ∧
    calculate_novice_score signalsC8 < dblF 1 1 ∧
    (∀ s : Signals, calculate_novice_score s ≤ dblF 1 1) := by
  refine ⟨by decide, by decide, by decide, ?_⟩
  intro s
  show max 0 (min (dblF 1 1) _) ≤ dblF 1 1
  exact Nat.max_le.mpr ⟨Nat.zero_le _, Nat.min_le_left _ _⟩

/-! ## External collaborators

The spec (sections 1 and 6) treats the mailer client, persona selection and
e-mail template rendering as external collaborators of the core; the HMAC
primitive is a library routine.  They are passed in as a record of
functions, and every theorem quantifies over them. -/

/-- An outreach persona (app/utils/personas.py, `Persona`). -/
structure Persona where
  name : String
  title : String
  from_email : String

/-- The lead-derived dict passed to `select_persona`. -/
structure PersonaCtx where
  repo : String
  issue_title : String
  user_login : String

/-- Arguments of `generate_email_template` (app/utils/email_templates.py). -/
structure TemplateArgs where
  template_type : String
  persona_name : String
  persona_title : String
  repo : String
  issue_title : String
  recipient_name : String
  message_style : String

/-- A rendered e-mail template. -/
structure EmailTemplate where
  subject : String
  body : String

/-- `ProductInviteParams` of app/core/agents/email_agent.py. -/
structure ProductInviteParams where
  lead_id : String
  repo : String
  issue_title : String
  recipient_name : String
  recipient_email : Option String
  persona_name : String
  persona_title : String
  persona_from_email : String
  message_style : String
deriving DecidableEq, Repr

/-- The result dict returned by the mailer (`send_product_invite_direct`). -/
structure SendResult where
  success : Bool
  message_id : Option String
  thread_id : Option String
  error_message : Option String
  error : Option String
deriving DecidableEq, Repr

/-- The bundle of external collaborators. -/
structure Ext where
  hmac_sha256_hex : String → List Nat → String
  send_product_invite_direct : ProductInviteParams → SendResult
  select_persona : PersonaCtx → Persona
  generate_email_template : TemplateArgs → EmailTemplate

/-- A throw-away instantiation of the external collaborators, used by the
concrete evaluations. -/
def extDummy : Ext :=
  { hmac_sha256_hex := fun _ _ => "00"
    send_product_invite_direct := fun _ =>
      { success := true, message_id := some "m", thread_id := some "t",
        error_message := none, error := none }
    select_persona := fun _ => { name := "P", title := "T", from_email := "p@x.org" }
    generate_email_template := fun _ => { subject := "s", body := "b" } }

/-! ## Webhook payloads (app/api/v1/webhooks.py) -/

/-- An ISO-8601 timestamp string as carried by a JSON payload: it either
parses (`datetime.fromisoformat`) to an epoch value, or raises on parsing.
(The strings arising here are non-empty, hence truthy.) -/
inductive TsStr where
  | valid (t : Nat)
  | invalid
deriving DecidableEq, Repr

/-- The `metadata` sub-object of a webhook payload. -/
structure MetaObj where
  dataset_id : Option String
deriving DecidableEq, Repr

/-- The `message` sub-object of a webhook payload. -/
structure MsgObj where
  id : Option String
  thread_id : Option String
  metadata : Option MetaObj
  received_at : Option TsStr
  attachments : List String
  from_email : Option String
deriving DecidableEq, Repr

/-- A parsed webhook JSON payload: the `message` sub-object if the key is
present, plus the top-level keys the handlers read.  `typ` models the
`"type"` key. -/
structure EventPayload where
  event_type : Option String
  typ : Option String
  message : Option MsgObj
  thread_id : Option String
  message_id : Option String
  id : Option String
  metadata : Option MetaObj
  received_at : Option TsStr
  attachments : List String
deriving DecidableEq, Repr

/-- `message.get("thread_id")` where `message = payload.get("message", payload)`:
when the `message` key is absent the payload itself acts as the message. -/
def EventPayload.msgThreadId (p : EventPayload) : Option String :=
  match p.message with
  | some m => m.thread_id
  | none => p.thread_id

/-- `message.get("id")` with the same payload fallback. -/
def EventPayload.msgId (p : EventPayload) : Option String :=
  match p.message with
  | some m => m.id
  | none => p.id

/-- `message.get("received_at")` with the same payload fallback. -/
def EventPayload.msgReceivedAt (p : EventPayload) : Option TsStr :=
  match p.message with
  | some m => m.received_at
  | none => p.received_at

/-- `message.get("attachments") or []` with the same payload fallback. -/
def EventPayload.msgAttachments (p : EventPayload) : List String :=
  match p.message with
  | some m => m.attachments
  | none => p.attachments

/-- `metadata.get("dataset_id")` where
`metadata = message.get("metadata", payload.get("metadata", {})) or {}`. -/
def EventPayload.msgDatasetId (p : EventPayload) : Option String :=
  match (match p.message with | some m => m.metadata | none => none) with
  | some md => md.dataset_id
  | none =>
    match p.metadata with
    | some md => md.dataset_id
    | none => none

/-- `received_at = message.get("received_at") or payload.get("received_at")`
(webhooks.py line 101). -/
def EventPayload.effReceivedAt (p : EventPayload) : Option TsStr :=
  match p.msgReceivedAt with
  | some ts => some ts
  | none => p.received_at

/-- `replied_at` value of the received handler: the event timestamp if it
parses, else the receipt time (`datetime.utcnow()`), webhooks.py 102-105. -/
def webhookEventTs (p : EventPayload) (now : Nat) : Nat :=
  match p.effReceivedAt with
  | some (.valid t) => t
  | some .invalid => now
  | none => now

/-! ## Webhook handlers (webhooks.py) -/

/-- Python's `o = o or fallback` on optionals: keep `o` when it is set,
otherwise take the fallback (the `if not outreach:` chains). -/
def pyFirst {α : Type} (a b : Option α) : Option α :=
  match a with
  | some x => some x
  | none => b

/-- `pyFirst` is associative, so a sequential fallback chain is
first-match-wins. -/
theorem pyFirst_assoc {α : Type} (a b c : Option α) :
    pyFirst (pyFirst a b) c = pyFirst a (pyFirst b c) := by
  cases a <;> rfl

/-- The `thread_id` lookup of `handle_message_received` (webhooks.py 89-90),
guarded by truthiness of the key. -/
def webhookThreadLookup (db : DB) (p : EventPayload) : Option OutreachRec :=
  match orF p.msgThreadId p.thread_id with
  | some t => db.outreach.find? (fun r => r.thread_id == some t)
  | none => none

/-- The `message_id` lookup of `handle_message_received` (webhooks.py 91-92). -/
def webhookMessageLookup (db : DB) (p : EventPayload) : Option OutreachRec :=
  match orF p.msgId p.message_id with
  | some m => db.outreach.find? (fun r => r.message_id == some m)
  | none => none

/-- The `metadata.dataset_id` lookup of `handle_message_received`
(webhooks.py 93-94). -/
def webhookDatasetLookup (db : DB) (p : EventPayload) : Option OutreachRec :=
  match truthy p.msgDatasetId with
  | some d => db.outreach.find? (fun r => r.dataset_id == some d)
  | none => none

/-- The matching block of `handle_message_received` (webhooks.py 84-98):
try `thread_id`, then (`if not outreach`) `message_id`, then
(`if not outreach`) `metadata.dataset_id`; `first()` is the first row in
insertion order. -/
def webhookReceiveMatch (db : DB) (p : EventPayload) : Option OutreachRec :=
  pyFirst (pyFirst (webhookThreadLookup db p) (webhookMessageLookup db p))
    (webhookDatasetLookup db p)

/-- The mutation the received handler applies to the matched row
(webhooks.py 100-110): set status REPLIED, set `replied_at` to the event
timestamp (or receipt time), and require approval when the inbound message
carries attachments. -/
def receivedUpdate (p : EventPayload) (now : Nat) (r : OutreachRec) : OutreachRec :=
  { r with
    status := OutreachStatus.replied.value
    replied_at := some (webhookEventTs p now)
    approval_required := if p.msgAttachments ≠ [] then true else r.approval_required }

/-- `handle_message_received` (webhooks.py 76-122).  The provenance write at
the end is fire-and-forget and swallowed; it does not touch the modelled
state. -/
def handle_message_received (db : DB) (p : EventPayload) (now : Nat) : DB :=
  match webhookReceiveMatch db p with
  | none => db
  | some o => db.updateOutreach o.id (receivedUpdate p now)

/-- The matching block of `handle_message_delivered` (webhooks.py 127-134):
`message_id` (`payload.get("message_id") or payload.get("id")`), then
(`if not outreach`) `thread_id`. -/
def webhookDeliveredMatch (db : DB) (p : EventPayload) : Option OutreachRec :=
  pyFirst
    (match orF p.message_id p.id with
     | some m => db.outreach.find? (fun r => r.message_id == some m)
     | none => none)
    (match truthy p.thread_id with
     | some t => db.outreach.find? (fun r => r.thread_id == some t)
     | none => none)

/-- `handle_message_delivered` (webhooks.py 125-141): set status DELIVERED
on the matched row. -/
def handle_message_delivered (db : DB) (p : EventPayload) : DB :=
  match webhookDeliveredMatch db p with
  | none => db
  | some o => db.updateOutreach o.id (fun r => { r with status := OutreachStatus.delivered.value })

/-- The matching block of `handle_message_bounced` (webhooks.py 146-151):
`message_id` only. -/
def webhookBouncedMatch (db : DB) (p : EventPayload) : Option OutreachRec :=
  match orF p.message_id p.id with
  | some m => db.outreach.find? (fun r => r.message_id == some m)
  | none => none

/-- `handle_message_bounced` (webhooks.py 144-163): set status CLOSED on
the matched row. -/
def handle_message_bounced (db : DB) (p : EventPayload) : DB :=
  match webhookBouncedMatch db p with
  | none => db
  | some o => db.updateOutreach o.id (fun r => { r with status := OutreachStatus.closed.value })

/-- `verify_webhook_signature` (webhooks.py 166-174): no signature means
failure; otherwise compare the HMAC-SHA256 hexdigest of the raw body with
the header value (`hmac.compare_digest` is functionally string equality). -/
def verify_webhook_signature (ext : Ext) (body : List Nat) (signature : Option String) (secret : String) : Bool :=
  match signature with
  | none => false
  | some s => ext.hmac_sha256_hex secret body == s

/-- Responses of the webhook endpoint. -/
inductive WebResp where
  | ok (event_type : String)
  | ignoredEvent (event_type : Option String)
  | authError
  | badJson
deriving DecidableEq, Repr

/-- Event-type normalization and dispatch of `handle_agentmail_webhook`
(webhooks.py 46-73): map legacy names onto
{message.received, message.delivered, message.bounced}, run the matching
handler, answer "ok"; unknown types answer "ignored". -/
def normalizeEventType (et : Option String) : Option String :=
  match et with
  | some "email.replied" => some "message.received"
  | some "email.delivered" => some "message.delivered"
  | some "email.failed" => some "message.bounced"
  | some "email.bounced" => some "message.bounced"
  | some "email.sent" => some "message.delivered"
  | x => x

/-- Dispatch after normalization (the `if`/`elif` chain of webhooks.py
59-68): run the matching handler and answer "ok"; unknown types answer
"ignored". -/
def webhookDispatch (db : DB) (parsed : Option EventPayload) (now : Nat) : DB × WebResp :=
  match parsed with
  | none => (db, .badJson)
  | some p =>
    let et := normalizeEventType (orF p.event_type p.typ)
    if et = some "message.received" then (handle_message_received db p now, .ok "message.received")
    else if et = some "message.delivered" then (handle_message_delivered db p, .ok "message.delivered")
    else if et = some "message.bounced" then (handle_message_bounced db p, .ok "message.bounced")
    else (db, .ignoredEvent et)

/-- `handle_agentmail_webhook` (webhooks.py 22-73): read the raw body; if a
webhook secret is configured and the signature fails to verify, reject with
401 before parsing the body or running any handler; a body that fails to
parse as JSON is a 400; otherwise normalize and dispatch.  `parsed` is the
JSON parse of `body` (or `none` when unparseable). -/
def handle_agentmail_webhook (ext : Ext) (db : DB) (secret : Option String)
    (signature : Option String) (body : List Nat) (parsed : Option EventPayload)
    (now : Nat) : DB × WebResp :=
  match secret with
  | some sec =>
    if verify_webhook_signature ext body signature sec then
      webhookDispatch db parsed now
    else (db, .authError)
  | none => webhookDispatch db parsed now

/-! ## Monitoring-path reply processing (app/core/tasks/email_monitoring_tasks.py) -/

/-- One message as returned by the mailer's message listing. -/
structure MsgData where
  id : Option String
  from_email : Option String
  subject : String
  received_at : Option TsStr
deriving DecidableEq, Repr

/-- Timestamp parsing of `_process_single_email_reply` (lines 205-211):
default to the receipt time, override with the parsed `received_at` when
parsing succeeds. -/
def eventReceivedAt (m : MsgData) (now : Nat) : Nat :=
  match m.received_at with
  | some (.valid t) => t
  | _ => now

/-- `True` when `a` is strictly later than `b`, with NULL `sent_at` sorting
last under `ORDER BY sent_at DESC` (SQLite treats NULL as smallest). -/
def sentAtGt (a b : Option Nat) : Bool :=
  match a, b with
  | none, _ => false
  | some _, none => true
  | some x, some y => x > y

/-- One step of the latest-`sent_at` maximum scan. -/
def latestStep (acc : Option OutreachRec) (r : OutreachRec) : Option OutreachRec :=
  match acc with
  | none => some r
  | some a => if sentAtGt r.sent_at a.sent_at then some r else acc

/-- `query.filter_by(contact_email=...).order_by(sent_at.desc()).first()`:
the row with the latest `sent_at` among those matching the address, earliest
row winning ties (row order). -/
def selectLatestByEmail (l : List OutreachRec) (e : String) : Option OutreachRec :=
  (l.filter (fun r => r.contact_email == e)).foldl latestStep none

/-- The explicit-id lookup of `_process_single_email_reply` (lines 216-217). -/
def monitorIdLookup (db : DB) (outreach_id : Option String) : Option OutreachRec :=
  match truthy outreach_id with
  | some i => db.outreach.find? (fun r => r.id == i)
  | none => none

/-- The `message_id` lookup of `_process_single_email_reply` (lines 220-221). -/
def monitorMessageLookup (db : DB) (msg : MsgData) : Option OutreachRec :=
  match truthy msg.id with
  | some m => db.outreach.find? (fun r => r.message_id == some m)
  | none => none

/-- The `contact_email` lookup of `_process_single_email_reply` (lines
224-227), latest `sent_at` first. -/
def monitorEmailLookup (db : DB) (msg : MsgData) : Option OutreachRec :=
  match truthy msg.from_email with
  | some f => selectLatestByEmail db.outreach f
  | none => none

/-- The matching block of `_process_single_email_reply` (lines 213-227):
explicit `outreach_id`, then (`if not outreach`) `message_id`, then
(`if not outreach`) `contact_email` tie-broken by most recent `sent_at`. -/
def monitorMatch (db : DB) (msg : MsgData) (outreach_id : Option String) : Option OutreachRec :=
  pyFirst (pyFirst (monitorIdLookup db outreach_id) (monitorMessageLookup db msg))
    (monitorEmailLookup db msg)

/-- The lead cascade of `_process_single_email_reply` (lines 245-250): the
*first* lead with the contact's e-mail address advances to stage REPLIED,
and only from {new, enriched, contacted}. -/
def cascadeLeads (leads : List LeadRec) (e : String) : List LeadRec :=
  match leads.find? (fun l => l.email == some e) with
  | none => leads
  | some l =>
    if [LeadStage.new.value, LeadStage.enriched.value, LeadStage.contacted.value].contains l.stage then
      leads.map (fun x => if x.id = l.id then { x with stage := LeadStage.replied.value } else x)
    else leads

/-- Results of `_process_single_email_reply`. -/
inductive ProcResult where
  | notProcessed (reason : String)
  | processed (outreach_id old_status new_status : String)
deriving DecidableEq, Repr

/-- The already-processed guard of `_process_single_email_reply` (lines
233-238): a no-op when the matched row is REPLIED with a `replied_at` at or
after the event timestamp. -/
def alreadyProcessedGuard (o : OutreachRec) (received_at : Nat) : Bool :=
  o.status == OutreachStatus.replied.value &&
    (match o.replied_at with
     | some rt => decide (received_at ≤ rt)
     | none => false)

/-- `_process_single_email_reply` (email_monitoring_tasks.py 184-275):
match the message to an outreach row, skip when already caught up,
otherwise set status REPLIED with the event timestamp and cascade the first
matching lead. -/
def process_single_email_reply (db : DB) (msg : MsgData) (outreach_id : Option String)
    (now : Nat) : DB × ProcResult :=
  let received_at := eventReceivedAt msg now
  match monitorMatch db msg outreach_id with
  | none => (db, .notProcessed "no_matching_outreach")
  | some o =>
    if alreadyProcessedGuard o received_at then
      (db, .notProcessed "already_processed")
    else
      let db1 := db.updateOutreach o.id
        (fun r => { r with status := OutreachStatus.replied.value, replied_at := some received_at })
      let db2 := { db1 with leads := cascadeLeads db1.leads o.contact_email }
      (db2, .processed o.id o.status OutreachStatus.replied.value)

/-! ## Claim C9: the signature gate -/

/-- C9.  Whenever a webhook secret is configured, a POST whose signature is
missing or whose HMAC-SHA256 hexdigest over the raw body does not equal the
header value is rejected with the 401 authentication error, before the body
is parsed and before any handler runs; the returned state is the input
state, so the request performs zero database writes.  Quantified over the
HMAC implementation and the payload. -/
theorem webhook_signature_gate (ext : Ext) (db : DB) (sec : String)
    (signature : Option String) (body : List Nat) (parsed : Option EventPayload) (now : Nat)
    (h : signature = none ∨ ∃ s, signature = some s ∧ ext.hmac_sha256_hex sec body ≠ s) :
    handle_agentmail_webhook ext db (some sec) signature body parsed now = (db, .authError) := by
  have hv : verify_webhook_signature ext body signature sec = false := by
    rcases h with h | ⟨s, hs, hne⟩
    · simp [verify_webhook_signature, h]
    · simp only [verify_webhook_signature, hs]
      exact beq_eq_false_iff_ne.mpr hne
  simp [handle_agentmail_webhook, hv]

/-- The empty database. -/
def dbEmpty : DB := { outreach := [], leads := [] }

/-- C9, witness: with secret "sec" configured and a wrong signature header,
the endpoint answers 401 and the (empty) database is untouched. -/
theorem webhook_signature_gate_witness :
    handle_agentmail_webhook extDummy dbEmpty (some "sec") (some "bad") [1, 2] none 0 =
      (dbEmpty, .authError) :=
  webhook_signature_gate extDummy dbEmpty "sec" (some "bad") [1, 2] none 0
    (Or.inr ⟨"bad", rfl, by decide⟩)

/-! ## Claim C5: the reconciliation fallback chain -/

/-- A SENT outreach row with neither `thread_id` nor `message_id` recorded,
reachable only through its `contact_email`. -/
def recC5 : OutreachRec :=
  { id := "o1", dataset_id := none, requester_email := "req@lab.org",
    requester_name := "Req", contact_email := "x@y.org", contact_name := "X",
    status := "sent", email_subject := "s", email_body := "b",
    thread_id := none, message_id := none, approval_required := false,
    approved_at := none, approved_by := none, sent_at := some 500,
    replied_at := none, created_at := 100 }

/-- Database holding only `recC5`. -/
def dbC5 : DB := { outreach := [recC5], leads := [] }

/-- A `message.received` event carrying only the sender address
`x@y.org` — no thread id, no message id, no dataset id. -/
def payloadC5 : EventPayload :=
  { event_type := some "message.received", typ := none,
    message := some
      { id := none, thread_id := none, metadata := none,
        received_at := some (.valid 600), attachments := [],
        from_email := some "x@y.org" },
    thread_id := none, message_id := none, id := none, metadata := none,
    received_at := none, attachments := [] }

/-- C5, counterexample.  The webhook endpoint's matching chain stops at
`dataset_id`: an event identifiable only by `contact_email` does not reach
`recC5` (whose address it carries), the record stays untouched, and the
response is "ok" — not the "ignored" response the claim requires on a miss
("ignored" is produced only for unhandled event types). -/
theorem webhook_contact_email_not_used :
    handle_agentmail_webhook extDummy dbC5 none none [] (some payloadC5) 700 =
      (dbC5, .ok "message.received") ∧
    dbC5.outreach.find? (fun r => r.contact_email == "x@y.org") = some recC5 := by
  exact ⟨by decide, by decide⟩

/-- C5, amended.  The webhook handler's chain is exactly
`thread_id` → `message_id` → `dataset_id` (first match wins) and a miss is
answered with "ok" and no state change (not "ignored", which is reserved
for unhandled event types); the monitoring-path processor's chain is
exactly explicit outreach id → `message_id` → `contact_email` tie-broken by
latest `sent_at`, and its miss is reported as not-processed, not as an
error.  Neither path implements the four-key chain of the claim. -/
theorem reconciliation_fallback_chain :
    (∀ (db : DB) (p : EventPayload),
      webhookReceiveMatch db p =
        pyFirst (webhookThreadLookup db p)
          (pyFirst (webhookMessageLookup db p) (webhookDatasetLookup db p))) ∧
    (∀ (db : DB) (p : EventPayload) (now : Nat),
      webhookReceiveMatch db p = none → handle_message_received db p now = db) ∧
    (∀ (ext : Ext) (db : DB) (p : EventPayload) (now : Nat) (sig : Option String) (body : List Nat),
      p.event_type = some "message.received" →
      webhookReceiveMatch db p = none →
      handle_agentmail_webhook ext db none sig body (some p) now = (db, .ok "message.received")) ∧
    (∀ (db : DB) (msg : MsgData) (oid : Option String),
      monitorMatch db msg oid =
        pyFirst (monitorIdLookup db oid)
          (pyFirst (monitorMessageLookup db msg) (monitorEmailLookup db msg))) ∧
    (∀ (db : DB) (msg : MsgData) (oid : Option String) (now : Nat),
      monitorMatch db msg oid = none →
      process_single_email_reply db msg oid now = (db, .notProcessed "no_matching_outreach")) := by
  refine ⟨?_, ?_, ?_, ?_, ?_⟩
  · intro db p
    exact pyFirst_assoc _ _ _
  · intro db p now h
    simp [handle_message_received, h]
  · intro ext db p now sig body het h
    simp [handle_agentmail_webhook, webhookDispatch, normalizeEventType, orF, truthy, het,
      handle_message_received, h]
  · intro db msg oid
    exact pyFirst_assoc _ _ _
  · intro db msg oid now h
    simp [process_single_email_reply, h]

/-- C5 amended, witness: on the concrete miss of `payloadC5` the chain
characterization and the miss behaviour instantiate: the chain yields no
match, the handler leaves the database unchanged, the endpoint answers
"ok", and the monitoring processor reports a non-error miss on an empty
database. -/
theorem reconciliation_fallback_chain_witness :
    webhookReceiveMatch dbC5 payloadC5 =
      pyFirst (webhookThreadLookup dbC5 payloadC5)
        (pyFirst (webhookMessageLookup dbC5 payloadC5) (webhookDatasetLookup dbC5 payloadC5)) ∧
    handle_message_received dbC5 payloadC5 700 = dbC5 ∧
    handle_agentmail_webhook extDummy dbC5 none none [] (some payloadC5) 700 =
      (dbC5, .ok "message.received") ∧
    process_single_email_reply dbEmpty { id := none, from_email := none, subject := "", received_at := none } none 0 =
      (dbEmpty, .notProcessed "no_matching_outreach") :=
  ⟨reconciliation_fallback_chain.1 dbC5 payloadC5,
   reconciliation_fallback_chain.2.1 dbC5 payloadC5 700 (by decide),
   reconciliation_fallback_chain.2.2.1 extDummy dbC5 payloadC5 700 none [] rfl (by decide),
   reconciliation_fallback_chain.2.2.2.2 dbEmpty
     { id := none, from_email := none, subject := "", received_at := none } none 0 (by decide)⟩

/-! ## Claim C3: idempotence of reply handling -/

/-- An outreach row that has already recorded a reply at time 200. -/
def recC3 : OutreachRec :=
  { id := "o3", dataset_id := none, requester_email := "req@lab.org",
    requester_name := "Req", contact_email := "c3@y.org", contact_name := "C",
    status := "replied", email_subject := "s", email_body := "b",
    thread_id := some "t3", message_id := some "m3", approval_required := false,
    approved_at := none, approved_by := none, sent_at := some 50,
    replied_at := some 200, created_at := 10 }

/-- Database holding only `recC3`. -/
def dbC3 : DB := { outreach := [recC3], leads := [] }

/-- A `message.received` event for `recC3`'s thread carrying the *older*
timestamp 100. -/
def payloadC3 : EventPayload :=
  { event_type := some "message.received", typ := none,
    message := some
      { id := some "m3", thread_id := some "t3", metadata := none,
        received_at := some (.valid 100), attachments := [],
        from_email := some "c3@y.org" },
    thread_id := none, message_id := none, id := none, metadata := none,
    received_at := none, attachments := [] }

/-- C3, counterexample.  The webhook received handler has no idempotence
guard: for a matched row whose `replied_at` (200) is up to date, a reply
event carrying the older timestamp 100 is *not* a no-op — the handler
rewinds `replied_at` to 100, so the record changes and duplicate or
out-of-order delivery is not protected on this path. -/
theorem webhook_reply_overwrites_newer :
    webhookEventTs payloadC3 999 = 100 ∧
    recC3.replied_at = some 200 ∧
    handle_message_received dbC3 payloadC3 999 ≠ dbC3 ∧
    (handle_message_received dbC3 payloadC3 999).outreach.map (fun r => r.replied_at) =
      [some 100] := by
  exact ⟨by decide, by decide, by decide, by decide⟩

/-! ## Claim C6: effects of a matched reply -/

/-- A NEW-stage lead sharing the contact address of `recC6`. -/
def leadC6 : LeadRec :=
  { id := "l6", repo := "scverse/scanpy", issue_title := "help with loading",
    user_login := "bio_user", email := some "c6@y.org", stage := "new" }

/-- A SENT outreach row with known thread and message ids. -/
def recC6 : OutreachRec :=
  { id := "o6", dataset_id := none, requester_email := "req@lab.org",
    requester_name := "Req", contact_email := "c6@y.org", contact_name := "C",
    status := "sent", email_subject := "s", email_body := "b",
    thread_id := some "t6", message_id := some "m6", approval_required := false,
    approved_at := none, approved_by := none, sent_at := some 50,
    replied_at := none, created_at := 10 }

/-- Database holding `recC6` and the matching lead `leadC6`. -/
def dbC6 : DB := { outreach := [recC6], leads := [leadC6] }

/-- A `message.received` event for `recC6`'s thread. -/
def payloadC6 : EventPayload :=
  { event_type := some "message.received", typ := none,
    message := some
      { id := some "m6", thread_id := some "t6", metadata := none,
        received_at := some (.valid 150), attachments := [],
        from_email := some "c6@y.org" },
    thread_id := none, message_id := none, id := none, metadata := none,
    received_at := none, attachments := [] }

/-- C6, counterexample.  The webhook received handler applies the reply to
the outreach row (status becomes REPLIED) but performs *no* lead cascade:
the NEW-stage lead sharing the contact e-mail stays at stage "new"
untouched, although the claim requires it to advance to REPLIED. -/
theorem webhook_reply_no_lead_cascade :
    (handle_message_received dbC6 payloadC6 999).outreach.map (fun r => r.status) =
      [OutreachStatus.replied.value] ∧
    (handle_message_received dbC6 payloadC6 999).leads = [leadC6] ∧
    leadC6.email = some recC6.contact_email ∧
    leadC6.stage = LeadStage.new.value := by
  exact ⟨by decide, by decide, by decide, by decide⟩

/-! ## Invariance of matching under reply updates

The reply update changes only `status` and `replied_at`; the matching keys
(`id`, `message_id`, `contact_email`, `sent_at`) are untouched, so a second
identical delivery finds the same (updated) row. -/

theorem find?_map_pres {α : Type} (l : List α) (g : α → α) (p : α → Bool)
    (hp : ∀ r, p (g r) = p r) :
    (l.map g).find? p = (l.find? p).map g := by
  induction l with
  | nil => rfl
  | cons a t ih =>
    by_cases h : p a
    · rw [List.map_cons, List.find?_cons_of_pos _ (by rw [hp]; exact h),
        List.find?_cons_of_pos _ h]
      rfl
    · rw [List.map_cons, List.find?_cons_of_neg _ (by rw [hp]; exact h),
        List.find?_cons_of_neg _ h]
      exact ih

theorem filter_map_pres {α : Type} (l : List α) (g : α → α) (p : α → Bool)
    (hp : ∀ r, p (g r) = p r) :
    (l.map g).filter p = (l.filter p).map g := by
  induction l with
  | nil => rfl
  | cons a t ih =>
    by_cases h : p a
    · simp [List.filter_cons, hp, h, ih]
    · simp [List.filter_cons, hp, h, ih]

theorem latestStep_map (g : OutreachRec → OutreachRec)
    (hsa : ∀ r, (g r).sent_at = r.sent_at) (acc : Option OutreachRec) (r : OutreachRec) :
    latestStep (acc.map g) (g r) = (latestStep acc r).map g := by
  cases acc with
  | none => rfl
  | some a =>
    simp only [latestStep, Option.map_some', hsa]
    by_cases h : sentAtGt r.sent_at a.sent_at <;> simp [h]

theorem foldl_latest_map (g : OutreachRec → OutreachRec)
    (hsa : ∀ r, (g r).sent_at = r.sent_at) (l : List OutreachRec) (acc : Option OutreachRec) :
    (l.map g).foldl latestStep (acc.map g) = (l.foldl latestStep acc).map g := by
  induction l generalizing acc with
  | nil => rfl
  | cons a t ih =>
    rw [List.map_cons, List.foldl_cons, List.foldl_cons, latestStep_map g hsa, ih]

theorem selectLatest_map (g : OutreachRec → OutreachRec)
    (hce : ∀ r, (g r).contact_email = r.contact_email)
    (hsa : ∀ r, (g r).sent_at = r.sent_at) (l : List OutreachRec) (e : String) :
    selectLatestByEmail (l.map g) e = (selectLatestByEmail l e).map g := by
  unfold selectLatestByEmail
  rw [filter_map_pres l g (fun r => r.contact_email == e) (fun r => by simp [hce])]
  have h := foldl_latest_map g hsa (l.filter (fun r => r.contact_email == e)) none
  simpa using h

theorem pyFirst_map {α : Type} (g : α → α) (a b : Option α) :
    pyFirst (a.map g) (b.map g) = (pyFirst a b).map g := by
  cases a <;> rfl

theorem monitorMatch_map (dbA dbB : DB) (g : OutreachRec → OutreachRec)
    (msg : MsgData) (oid : Option String)
    (h : dbA.outreach = dbB.outreach.map g)
    (hid : ∀ r, (g r).id = r.id)
    (hmid : ∀ r, (g r).message_id = r.message_id)
    (hce : ∀ r, (g r).contact_email = r.contact_email)
    (hsa : ∀ r, (g r).sent_at = r.sent_at) :
    monitorMatch dbA msg oid = (monitorMatch dbB msg oid).map g := by
  unfold monitorMatch monitorIdLookup monitorMessageLookup monitorEmailLookup
  rw [h]
  have hX : (match truthy oid with
      | some i => (dbB.outreach.map g).find? (fun r : OutreachRec => r.id == i)
      | none => none) =
      (match truthy oid with
      | some i => dbB.outreach.find? (fun r : OutreachRec => r.id == i)
      | none => (none : Option OutreachRec)).map g := by
    cases truthy oid with
    | none => rfl
    | some i => exact find?_map_pres _ _ _ (fun r => by simp [hid])
  have hY : (match truthy msg.id with
      | some m => (dbB.outreach.map g).find? (fun r : OutreachRec => r.message_id == some m)
      | none => none) =
      (match truthy msg.id with
      | some m => dbB.outreach.find? (fun r : OutreachRec => r.message_id == some m)
      | none => (none : Option OutreachRec)).map g := by
    cases truthy msg.id with
    | none => rfl
    | some m => exact find?_map_pres _ _ _ (fun r => by simp [hmid])
  have hZ : (match truthy msg.from_email with
      | some f => selectLatestByEmail (dbB.outreach.map g) f
      | none => none) =
      (match truthy msg.from_email with
      | some f => selectLatestByEmail dbB.outreach f
      | none => (none : Option OutreachRec)).map g := by
    cases truthy msg.from_email with
    | none => rfl
    | some f => exact selectLatest_map g hce hsa _ f
  rw [hX, hY, hZ, pyFirst_map, pyFirst_map]

/-- C3, amended.  The idempotence guard lives only in the monitoring-path
reply processor `_process_single_email_reply`: when the matched row already
has status REPLIED and a `replied_at` at or after the event timestamp, the
processing is a no-op ("already_processed", database unchanged).
Consequently delivering the same reply message twice through the
monitoring path yields the same final state as delivering it once, whenever
the message carries a parseable timestamp.  (The webhook received handler
has no such guard, see the counterexample.) -/
theorem monitor_reply_idempotence :
    (∀ (db : DB) (msg : MsgData) (oid : Option String) (now : Nat) (o : OutreachRec) (rt : Nat),
      monitorMatch db msg oid = some o →
      o.status = OutreachStatus.replied.value →
      o.replied_at = some rt →
      eventReceivedAt msg now ≤ rt →
      process_single_email_reply db msg oid now = (db, .notProcessed "already_processed")) ∧
    (∀ (db : DB) (msg : MsgData) (oid : Option String) (now now2 t : Nat),
      msg.received_at = some (.valid t) →
      (process_single_email_reply (process_single_email_reply db msg oid now).1 msg oid now2).1 =
        (process_single_email_reply db msg oid now).1) := by
  constructor
  · intro db msg oid now o rt h hs hr hle
    have hg : alreadyProcessedGuard o (eventReceivedAt msg now) = true := by
      simp [alreadyProcessedGuard, hs, hr, hle]
    simp [process_single_email_reply, h, hg]
  · intro db msg oid now now2 t ht
    have hrt : ∀ n : Nat, eventReceivedAt msg n = t := by
      intro n
      simp [eventReceivedAt, ht]
    cases h1 : monitorMatch db msg oid with
    | none =>
      simp [process_single_email_reply, h1]
    | some o =>
      cases hgb : alreadyProcessedGuard o t with
      | true =>
        have hfst : process_single_email_reply db msg oid now =
            (db, .notProcessed "already_processed") := by
          simp [process_single_email_reply, h1, hrt, hgb]
        rw [hfst]
        simp [process_single_email_reply, h1, hrt, hgb]
      | false =>
        have hfirst : process_single_email_reply db msg oid now =
            ({ outreach := db.outreach.map (fun r =>
                  if r.id = o.id then
                    { r with status := OutreachStatus.replied.value, replied_at := some t }
                  else r),
               leads := cascadeLeads db.leads o.contact_email },
             .processed o.id o.status OutreachStatus.replied.value) := by
          simp [process_single_email_reply, h1, hrt, hgb, DB.updateOutreach]
        rw [hfirst]
        have hid : ∀ r : OutreachRec,
            ((fun r => if r.id = o.id then
                { r with status := OutreachStatus.replied.value, replied_at := some t }
              else r) r).id = r.id := by
          intro r
          by_cases h : r.id = o.id <;> simp [h]
        have hmid : ∀ r : OutreachRec,
            ((fun r => if r.id = o.id then
                { r with status := OutreachStatus.replied.value, replied_at := some t }
              else r) r).message_id = r.message_id := by
          intro r
          by_cases h : r.id = o.id <;> simp [h]
        have hce : ∀ r : OutreachRec,
            ((fun r => if r.id = o.id then
                { r with status := OutreachStatus.replied.value, replied_at := some t }
              else r) r).contact_email = r.contact_email := by
          intro r
          by_cases h : r.id = o.id <;> simp [h]
        have hsa : ∀ r : OutreachRec,
            ((fun r => if r.id = o.id then
                { r with status := OutreachStatus.replied.value, replied_at := some t }
              else r) r).sent_at = r.sent_at := by
          intro r
          by_cases h : r.id = o.id <;> simp [h]
        have hm2 : monitorMatch
            { outreach := db.outreach.map (fun r =>
                if r.id = o.id then
                  { r with status := OutreachStatus.replied.value, replied_at := some t }
                else r),
              leads := cascadeLeads db.leads o.contact_email } msg oid =
            some { o with status := OutreachStatus.replied.value, replied_at := some t } := by
          rw [monitorMatch_map _ db _ msg oid rfl hid hmid hce hsa, h1]
          simp
        have hg2 : alreadyProcessedGuard
            { o with status := OutreachStatus.replied.value, replied_at := some t }
            (eventReceivedAt msg now2) = true := by
          rw [hrt]
          simp [alreadyProcessedGuard]
        simp [process_single_email_reply, hm2, hg2]

/-- The concrete monitoring message matching `recC3` with the older
timestamp 100. -/
def msgC3 : MsgData :=
  { id := some "m3", from_email := some "c3@y.org", subject := "re",
    received_at := some (.valid 100) }

/-- C3 amended, witness: for `recC3` (REPLIED at 200) the older reply event
is a no-op, and double delivery through the monitoring path is idempotent. -/
theorem monitor_reply_idempotence_witness :
    process_single_email_reply dbC3 msgC3 (some "o3") 999 =
      (dbC3, .notProcessed "already_processed") ∧
    (process_single_email_reply (process_single_email_reply dbC3 msgC3 none 5).1 msgC3 none 7).1 =
      (process_single_email_reply dbC3 msgC3 none 5).1 :=
  ⟨monitor_reply_idempotence.1 dbC3 msgC3 (some "o3") 999 recC3 200
      (by decide) (by decide) (by decide) (by decide),
   monitor_reply_idempotence.2 dbC3 msgC3 none 5 7 100 rfl⟩

/-- C6, amended.  A matched `received` event is handled by two independent
paths with different effects.  The webhook handler sets status REPLIED,
sets `replied_at` to the event timestamp (receipt time when unparseable)
and forces `approval_required` when the message carries attachments — but
it never touches any Lead.  The monitoring-path processor sets status
REPLIED and `replied_at` and advances only the *first* Lead with the
contact's e-mail, and only from a stage in {new, enriched, contacted}: a
lead found in any other stage is left untouched (no regression), and with
no matching lead the lead table is unchanged. -/
theorem reply_handlers_effects :
    (∀ (db : DB) (p : EventPayload) (now : Nat),
      (handle_message_received db p now).leads = db.leads) ∧
    (∀ (db : DB) (p : EventPayload) (now : Nat) (o : OutreachRec),
      webhookReceiveMatch db p = some o →
      handle_message_received db p now = db.updateOutreach o.id (receivedUpdate p now)) ∧
    (∀ (db : DB) (msg : MsgData) (oid : Option String) (now : Nat) (o : OutreachRec),
      monitorMatch db msg oid = some o →
      alreadyProcessedGuard o (eventReceivedAt msg now) = false →
      process_single_email_reply db msg oid now =
        ({ outreach := (db.updateOutreach o.id (fun r =>
              { r with status := OutreachStatus.replied.value,
                       replied_at := some (eventReceivedAt msg now) })).outreach,
           leads := cascadeLeads db.leads o.contact_email },
         .processed o.id o.status OutreachStatus.replied.value)) ∧
    (∀ (leads : List LeadRec) (e : String),
      leads.find? (fun l => l.email == some e) = none →
      cascadeLeads leads e = leads) ∧
    (∀ (leads : List LeadRec) (e : String) (l0 : LeadRec),
      leads.find? (fun l => l.email == some e) = some l0 →
      [LeadStage.new.value, LeadStage.enriched.value, LeadStage.contacted.value].contains l0.stage = false →
      cascadeLeads leads e = leads) := by
  refine ⟨?_, ?_, ?_, ?_, ?_⟩
  · intro db p now
    cases h : webhookReceiveMatch db p with
    | none => simp [handle_message_received, h]
    | some o => simp [handle_message_received, h, DB.updateOutreach]
  · intro db p now o h
    simp [handle_message_received, h]
  · intro db msg oid now o h hg
    simp [process_single_email_reply, h, hg, DB.updateOutreach]
  · intro leads e h
    simp [cascadeLeads, h]
  · intro leads e l0 h hc
    unfold cascadeLeads
    rw [h]
    show (if ([LeadStage.new.value, LeadStage.enriched.value,
        LeadStage.contacted.value].contains l0.stage) = true then _ else leads) = leads
    rw [hc]
    simp

/-- The concrete monitoring message matching `recC6`. -/
def msgC6 : MsgData :=
  { id := some "m6", from_email := some "c6@y.org", subject := "re",
    received_at := some (.valid 150) }

/-- A lead already past the cascade stages. -/
def leadStale : LeadRec :=
  { id := "ls", repo := "scverse/anndata", issue_title := "q",
    user_login := "old_user", email := some "stale@x.org", stage := "replied" }

/-- C6 amended, witness: concrete instantiations of all five conjuncts on
`dbC6`, `payloadC6`, `msgC6` and `leadStale`. -/
theorem reply_handlers_effects_witness :
    (handle_message_received dbC6 payloadC6 999).leads = dbC6.leads ∧
    handle_message_received dbC6 payloadC6 999 =
      dbC6.updateOutreach recC6.id (receivedUpdate payloadC6 999) ∧
    process_single_email_reply dbC6 msgC6 none 999 =
      ({ outreach := (dbC6.updateOutreach recC6.id (fun r =>
            { r with status := OutreachStatus.replied.value,
                     replied_at := some (eventReceivedAt msgC6 999) })).outreach,
         leads := cascadeLeads dbC6.leads recC6.contact_email },
       .processed recC6.id recC6.status OutreachStatus.replied.value) ∧
    cascadeLeads [] "nobody@x.org" = [] ∧
    cascadeLeads [leadStale] "stale@x.org" = [leadStale] :=
  ⟨reply_handlers_effects.1 dbC6 payloadC6 999,
   reply_handlers_effects.2.1 dbC6 payloadC6 999 recC6 (by decide),
   reply_handlers_effects.2.2.1 dbC6 msgC6 none 999 recC6 (by decide) (by decide),
   reply_handlers_effects.2.2.2.1 [] "nobody@x.org" rfl,
   reply_handlers_effects.2.2.2.2 [leadStale] "stale@x.org" leadStale (by decide) (by decide)⟩

/-! ## Outreach API endpoints (app/api/v1/outreach.py) -/

/-- The request payload of `POST /outreach` (schemas.OutreachRequest, the
fields the endpoint copies into the row). -/
structure OutreachCreateInput where
  dataset_id : Option String
  requester_email : String
  requester_name : String
  contact_email : String
  contact_name : String
  email_subject : String
  email_body : String
  approval_required : Bool
deriving DecidableEq, Repr

/-- `create_outreach_request` (outreach.py 79-116): unconditionally insert a
DRAFT row — the endpoint performs no duplicate check of any kind.  `newId`
is the generated uuid, `now` the server default `created_at`. -/
def create_outreach_request (db : DB) (inp : OutreachCreateInput) (newId : String)
    (now : Nat) : DB × OutreachRec :=
  let row : OutreachRec :=
    { id := newId, dataset_id := inp.dataset_id,
      requester_email := inp.requester_email, requester_name := inp.requester_name,
      contact_email := inp.contact_email, contact_name := inp.contact_name,
      status := OutreachStatus.draft.value,
      email_subject := inp.email_subject, email_body := inp.email_body,
      thread_id := none, message_id := none,
      approval_required := inp.approval_required,
      approved_at := none, approved_by := none, sent_at := none,
      replied_at := none, created_at := now }
  ({ db with outreach := db.outreach ++ [row] }, row)

/-- Rejections of the single-send endpoint: 404, the 400 naming the status,
or an uncaught Python exception (FastAPI 500). -/
inductive SendReject where
  | notFound
  | badStatus (status : String)
  | attrError (cls attrName : String)
deriving DecidableEq, Repr

/-- `send_outreach_request` (outreach.py 118-158): look the row up, check
`status not in [OutreachStatus.DRAFT.value, OutreachStatus.FAILED.value]`
(building that list evaluates `OutreachStatus.FAILED`, line 130), then set
QUEUED and schedule `send_single_outreach`.  Returns the state, the
scheduled task ids, and the outcome.  The endpoint has no
`approval_required` check. -/
def send_outreach_request (db : DB) (outreach_id : String) :
    DB × List String × Except SendReject Unit :=
  match db.outreach.find? (fun r => r.id == outreach_id) with
  | none => (db, [], .error .notFound)
  | some r =>
    match OutreachStatus.getValue "DRAFT" with
    | .error e =>
      match e with
      | .attributeError c n => (db, [], .error (.attrError c n))
      | .other m => (db, [], .error (.attrError "?" m))
    | .ok d =>
      match OutreachStatus.getValue "FAILED" with
      | .error e =>
        match e with
        | .attributeError c n => (db, [], .error (.attrError c n))
        | .other m => (db, [], .error (.attrError "?" m))
      | .ok f =>
        if ¬ (r.status = d ∨ r.status = f) then (db, [], .error (.badStatus r.status))
        else
          let db1 := db.updateOutreach r.id (fun x => { x with status := OutreachStatus.queued.value })
          (db1, [outreach_id], .ok ())

/-- Rejections of the approval endpoint. -/
inductive ApproveReject where
  | notFound
  | notRequired
  | alreadyApproved
deriving DecidableEq, Repr

/-- `approve_outreach_request` (outreach.py 189-225): set
`approved_at`/`approved_by`; a DRAFT row additionally advances to QUEUED. -/
def approve_outreach_request (db : DB) (outreach_id : String) (approved_by : String)
    (now : Nat) : DB × Except ApproveReject Unit :=
  match db.outreach.find? (fun r => r.id == outreach_id) with
  | none => (db, .error .notFound)
  | some r =>
    if ¬ r.approval_required then (db, .error .notRequired)
    else if r.approved_at ≠ none then (db, .error .alreadyApproved)
    else
      let db1 := db.updateOutreach r.id (fun x =>
        let x1 := { x with approved_at := some now, approved_by := some approved_by }
        if x1.status = OutreachStatus.draft.value then
          { x1 with status := OutreachStatus.queued.value }
        else x1)
      (db1, .ok ())

/-- Rejections of the bulk-send endpoint. -/
inductive BulkReject where
  | tooMany
  | someNotFound
  | invalidStatus (ids : List String)
  | needApproval (ids : List String)
  | pyError (e : PyErr)
deriving DecidableEq, Repr

/-- The ids named in the rejection's detail message: the status and approval
rejections interpolate the offending id list into their message; the
not-found rejection's message ("Some outreach requests not found") and a
raised exception name none. -/
def BulkReject.namedIds : BulkReject → List String
  | .invalidStatus ids => ids
  | .needApproval ids => ids
  | _ => []

/-- The status-validation loop of `send_bulk_outreach` (outreach.py
246-249): each iteration evaluates
`[OutreachStatus.DRAFT.value, OutreachStatus.FAILED.value]` afresh and
collects ids whose status is outside it; the first iteration's
`OutreachStatus.FAILED` access raises. -/
def collectInvalidStatus : List OutreachRec → Except PyErr (List String)
  | [] => .ok []
  | r :: rs =>
    match OutreachStatus.getValue "DRAFT" with
    | .error e => .error e
    | .ok d =>
      match OutreachStatus.getValue "FAILED" with
      | .error e => .error e
      | .ok f =>
        match collectInvalidStatus rs with
        | .error e => .error e
        | .ok rest => .ok (if ¬ (r.status = d ∨ r.status = f) then r.id :: rest else rest)

/-- `send_bulk_outreach` (outreach.py 228-290): cap 50; all ids must
resolve (`len(requests) != len(outreach_ids)` is a 400 *without* naming the
missing ids); then the status loop, the approval loop, and only then the
mutation loop (set QUEUED, schedule `send_single_outreach`).  Returns the
state, the scheduled ids, and the outcome. -/
def send_bulk_outreach (db : DB) (outreach_ids : List String) :
    DB × List String × Except BulkReject Unit :=
  if outreach_ids.length > 50 then (db, [], .error .tooMany)
  else
    let requests := db.outreach.filter (fun r => outreach_ids.contains r.id)
    if requests.length ≠ outreach_ids.length then (db, [], .error .someNotFound)
    else
      match collectInvalidStatus requests with
      | .error e => (db, [], .error (.pyError e))
      | .ok invalid =>
        if invalid ≠ [] then (db, [], .error (.invalidStatus invalid))
        else
          let unapproved := (requests.filter (fun r =>
            r.approval_required && r.approved_at == none)).map (fun r => r.id)
          if unapproved ≠ [] then (db, [], .error (.needApproval unapproved))
          else
            let db1 := { db with outreach := db.outreach.map (fun r =>
              if outreach_ids.contains r.id then
                { r with status := OutreachStatus.queued.value }
              else r) }
            (db1, requests.map (fun r => r.id), .ok ())

/-! ## Outreach tasks (app/core/tasks/outreach_tasks.py) -/

/-- Map a character (Python `str.replace` with single-character pattern, as
used on GitHub logins). -/
def replaceChar (c r : Char) (s : String) : String :=
  String.mk (s.data.map (fun x => if x = c then r else x))

/-- Python `str.title()` over a character list: an alphabetic character is
uppercased after a non-alphabetic character and lowercased otherwise. -/
def pyTitleGo : Bool → List Char → List Char
  | _, [] => []
  | prevAlpha, c :: cs =>
    (if c.isAlpha then (if prevAlpha then c.toLower else c.toUpper) else c) ::
      pyTitleGo c.isAlpha cs

/-- Python `str.title()`. -/
def pyTitle (s : String) : String := String.mk (pyTitleGo false s.data)

/-- `_send_lead_outreach` (outreach_tasks.py 308-370): build the invite
parameters, call the mailer, and on success copy the rendered template and
persona identity onto the outreach row.  Returns the (possibly updated)
row, the mailer result, and the mailer invocations made. -/
def send_lead_outreach (ext : Ext) (lead : LeadRec) (persona : Persona)
    (outreach : OutreachRec) : OutreachRec × SendResult × List ProductInviteParams :=
  let recipient_name := pyTitle (replaceChar '-' ' ' (replaceChar '_' ' ' lead.user_login))
  let params : ProductInviteParams :=
    { lead_id := lead.id, repo := lead.repo, issue_title := lead.issue_title,
      recipient_name := recipient_name, recipient_email := lead.email,
      persona_name := persona.name, persona_title := persona.title,
      persona_from_email := persona.from_email, message_style := "casual" }
  let result := ext.send_product_invite_direct params
  if result.success then
    let template := ext.generate_email_template
      { template_type := "product_invite", persona_name := persona.name,
        persona_title := persona.title, repo := lead.repo,
        issue_title := lead.issue_title, recipient_name := recipient_name,
        message_style := "casual" }
    ({ outreach with
        email_subject := template.subject, email_body := template.body,
        requester_email := persona.from_email, requester_name := persona.name },
     result, [params])
  else (outreach, result, [params])

/-- The message of `str(exc)` for the raised errors (content is
informational only). -/
def pyErrMsg : PyErr → String
  | .attributeError c n => c ++ " has no attribute " ++ n
  | .other m => m

/-- The `try` block of `_send_outreach_email` (outreach_tasks.py 220-289),
statement by statement.  Its very first statement
`outreach.status = OutreachStatus.SENDING.value` (line 222) evaluates
`OutreachStatus.SENDING`; the success and failure arms evaluate
`OutreachStatus.SENT` / `OutreachStatus.FAILED` (lines 257, 274).  An error
result carries the exception together with the state and mailer calls at
the moment of the raise. -/
def send_outreach_email_body (ext : Ext) (db : DB) (o : OutreachRec) (now : Nat) :
    Except (PyErr × DB × List ProductInviteParams) (DB × List ProductInviteParams × SendResult) :=
  match OutreachStatus.getValue "SENDING" with
  | .error e => .error (e, db, [])
  | .ok v =>
    let o1 := { o with status := v }
    let db1 := db.updateOutreach o.id (fun _ => o1)
    let leadq := db1.leads.find? (fun l => l.email == some o1.contact_email)
    let step : OutreachRec × SendResult × List ProductInviteParams :=
      match leadq with
      | some l =>
        let persona := ext.select_persona
          { repo := l.repo, issue_title := l.issue_title, user_login := l.user_login }
        send_lead_outreach ext l persona o1
      | none =>
        (o1, { success := false, message_id := none, thread_id := none,
               error_message := none,
               error := some "Data request outreach not yet implemented" }, [])
    let o2 := step.1
    let result := step.2.1
    let calls := step.2.2
    let db2 := db1.updateOutreach o.id (fun _ => o2)
    if result.success then
      match OutreachStatus.getValue "SENT" with
      | .error e => .error (e, db2, calls)
      | .ok v2 =>
        let db3 := db2.updateOutreach o.id (fun r =>
          { r with status := v2, sent_at := some now,
                   message_id := result.message_id, thread_id := result.thread_id })
        .ok (db3, calls, result)
    else
      match OutreachStatus.getValue "FAILED" with
      | .error e => .error (e, db2, calls)
      | .ok v2 =>
        let db3 := db2.updateOutreach o.id (fun r => { r with status := v2 })
        .ok (db3, calls, result)

/-- `_send_outreach_email` (outreach_tasks.py 209-305): run the try block;
the `except` arm (lines 291-305) sets `outreach.status =
OutreachStatus.FAILED.value` — which evaluates `OutreachStatus.FAILED`
and raises again, propagating to the caller with the row untouched. -/
def send_outreach_email (ext : Ext) (db : DB) (o : OutreachRec) (now : Nat) :
    DB × List ProductInviteParams × Except PyErr SendResult :=
  match send_outreach_email_body ext db o now with
  | .ok (db', calls, result) => (db', calls, .ok result)
  | .error (e, db', calls) =>
    match OutreachStatus.getValue "FAILED" with
    | .ok v =>
      (db'.updateOutreach o.id (fun r => { r with status := v }), calls,
       .ok { success := false, message_id := none, thread_id := none,
             error_message := none, error := some (pyErrMsg e) })
    | .error e2 => (db', calls, .error e2)

/-- The outcome summary of a queue-drain run. -/
structure DrainReport where
  status : String
  processed : Nat
  errors : Nat
deriving DecidableEq, Repr

/-- Stable insertion into a `created_at`-ascending list. -/
def insertByCreated (a : OutreachRec) : List OutreachRec → List OutreachRec
  | [] => [a]
  | b :: bs => if a.created_at ≤ b.created_at then a :: b :: bs else b :: insertByCreated a bs

/-- `ORDER BY created_at ASC` (stable). -/
def sortByCreated (l : List OutreachRec) : List OutreachRec :=
  l.foldr insertByCreated []

/-- One iteration of the drain loop of `process_outreach_queue`
(outreach_tasks.py 44-66): re-read the live row, skip it when approval is
required and missing, otherwise run `_send_outreach_email`; a raised
exception is caught, counted and the loop continues.  The accumulator is
(state, mailer calls, processed count, error count). -/
def drainStep (ext : Ext) (now : Nat)
    (acc : DB × List ProductInviteParams × Nat × Nat) (o : OutreachRec) :
    DB × List ProductInviteParams × Nat × Nat :=
  let dbAcc := acc.1
  let calls := acc.2.1
  let processed := acc.2.2.1
  let errCount := acc.2.2.2
  let cur := (dbAcc.outreach.find? (fun r => r.id == o.id)).getD o
  if cur.approval_required && cur.approved_at == none then acc
  else
    match send_outreach_email ext dbAcc cur now with
    | (db', calls', .ok result) =>
      if result.success then (db', calls ++ calls', processed + 1, errCount)
      else (db', calls ++ calls', processed, errCount + 1)
    | (db', calls', .error _) => (db', calls ++ calls', processed, errCount + 1)

/-- `process_outreach_queue` (outreach_tasks.py 21-83): select the ten
oldest QUEUED rows (creation-ascending), then run the drain loop. -/
def process_outreach_queue (ext : Ext) (db : DB) (now : Nat) :
    DB × List ProductInviteParams × DrainReport :=
  let queued := (sortByCreated (db.outreach.filter
    (fun r => r.status == OutreachStatus.queued.value))).take 10
  if queued = [] then (db, [], { status := "no_work", processed := 0, errors := 0 })
  else
    let final := queued.foldl (drainStep ext now) (db, [], 0, 0)
    (final.1, final.2.1,
     { status := "completed", processed := final.2.2.1, errors := final.2.2.2 })

/-- The configuration flags the embedded tasks read (app/config.py). -/
structure Settings where
  AUTOMATED_OUTREACH_ENABLED : Bool
deriving DecidableEq, Repr

/-- The result dict of `send_automated_outreach`. -/
structure AutoOutcome where
  success : Bool
  error : Option String
  skip : Bool
deriving DecidableEq, Repr

/-- The DRAFT row created by `send_automated_outreach` (outreach_tasks.py
128-138): empty subject and body (to be set by the template), approval
required unless automated outreach is enabled, `dataset_id` the empty
string. -/
def automated_outreach_row (persona : Persona) (lead : LeadRec) (email : String)
    (st : Settings) (newId : String) (now : Nat) : OutreachRec :=
  { id := newId, dataset_id := some "",
    requester_email := persona.from_email, requester_name := persona.name,
    contact_email := email, contact_name := lead.user_login,
    status := OutreachStatus.draft.value,
    email_subject := "", email_body := "",
    thread_id := none, message_id := none,
    approval_required := ! st.AUTOMATED_OUTREACH_ENABLED,
    approved_at := none, approved_by := none, sent_at := none,
    replied_at := none, created_at := now }

/-- `send_automated_outreach` (outreach_tasks.py 86-167): resolve the lead,
require an e-mail address, apply the 7-day dedup guard
(`created_at >= utcnow() - 7 days`, *before any side effect*), then create
a DRAFT row (approval required unless automated outreach is enabled), send
the invite, and advance the lead to CONTACTED on success.  `newId` is the
new row's id; timestamps are epoch seconds (the cutoff truncates at 0). -/
def send_automated_outreach (ext : Ext) (st : Settings) (db : DB) (lead_id : String)
    (newId : String) (now : Nat) : DB × List ProductInviteParams × AutoOutcome :=
  match db.leads.find? (fun l => l.id == lead_id) with
  | none => (db, [], { success := false, error := some "Lead not found", skip := false })
  | some lead =>
    match truthy lead.email with
    | none => (db, [], { success := false, error := some "No email address", skip := false })
    | some email =>
      let recent_cutoff := now - 7 * 86400
      match db.outreach.find? (fun r =>
        r.contact_email == email && decide (recent_cutoff ≤ r.created_at)) with
      | some _ =>
        (db, [], { success := false, error := some "Recent outreach already exists", skip := true })
      | none =>
        let persona := ext.select_persona
          { repo := lead.repo, issue_title := lead.issue_title, user_login := lead.user_login }
        let row := automated_outreach_row persona lead email st newId now
        let db1 := { db with outreach := db.outreach ++ [row] }
        let sent := send_lead_outreach ext lead persona row
        let o2 := sent.1
        let result := sent.2.1
        let calls := sent.2.2
        let db2 := db1.updateOutreach newId (fun _ => o2)
        let db3 := if result.success then
            db2.updateLead lead.id (fun l => { l with stage := LeadStage.contacted.value })
          else db2
        (db3, calls, { success := result.success, error := result.error, skip := false })

/-! ## Claims C1 and C4: the missing enum members in action -/

/-- For every input, `_send_outreach_email` raises: its first statement
evaluates `OutreachStatus.SENDING` (AttributeError), and the except arm's
own `OutreachStatus.FAILED` access raises again — so the call propagates an
AttributeError, performs no mailer call and leaves the state unchanged. -/
theorem send_outreach_email_always_fails (ext : Ext) (db : DB) (o : OutreachRec) (now : Nat) :
    send_outreach_email ext db o now =
      (db, [], .error (.attributeError "OutreachStatus" "FAILED")) := rfl

/-- The drain loop never changes the state, never invokes the mailer and
never marks a record processed: every non-skipped record's send raises
before doing anything, so only the error counter can move. -/
theorem drain_foldl_inert (ext : Ext) (now : Nat) (l : List OutreachRec) :
    ∀ (db : DB) (calls : List ProductInviteParams) (p e : Nat),
      ∃ e', l.foldl (drainStep ext now) (db, calls, p, e) = (db, calls, p, e') := by
  induction l with
  | nil => intro db calls p e; exact ⟨e, rfl⟩
  | cons a t ih =>
    intro db calls p e
    rw [List.foldl_cons]
    by_cases h : (((db.outreach.find? (fun r => r.id == a.id)).getD a).approval_required &&
        ((db.outreach.find? (fun r => r.id == a.id)).getD a).approved_at == none) = true
    · have hstep : drainStep ext now (db, calls, p, e) a = (db, calls, p, e) := by
        simp [drainStep, h]
      rw [hstep]
      exact ih db calls p e
    · have hb : (((db.outreach.find? (fun r => r.id == a.id)).getD a).approval_required &&
          ((db.outreach.find? (fun r => r.id == a.id)).getD a).approved_at == none) = false := by
        simpa using h
      have hstep : drainStep ext now (db, calls, p, e) a = (db, calls, p, e + 1) := by
        simp [drainStep, hb, send_outreach_email_always_fails]
      rw [hstep]
      exact ih db calls p (e + 1)

/-- A QUEUED row that needs no approval, ready to send. -/
def recC1 : OutreachRec :=
  { id := "q1", dataset_id := none, requester_email := "req@lab.org",
    requester_name := "Req", contact_email := "c1@y.org", contact_name := "C",
    status := "queued", email_subject := "s", email_body := "b",
    thread_id := none, message_id := none, approval_required := false,
    approved_at := none, approved_by := none, sent_at := none,
    replied_at := none, created_at := 5 }

/-- Database holding only `recC1`. -/
def dbC1 : DB := { outreach := [recC1], leads := [] }

/-- C1: the queue drain on a single ready QUEUED row.  The claimed
QUEUED→SENDING→SENT/FAILED progression never happens: line 222 evaluates
`OutreachStatus.SENDING` of an enum without that member, the except arm's
`OutreachStatus.FAILED` raises again, the loop counts one error, the row
stays "queued", and the external mailer is never invoked (no calls,
although the supplied mailer would report success). -/
theorem drain_attribute_error :
    process_outreach_queue extDummy dbC1 999 =
      (dbC1, [], { status := "completed", processed := 0, errors := 1 }) ∧
    dbC1.outreach.map (fun r => r.status) = [OutreachStatus.queued.value] ∧
    (extDummy.send_product_invite_direct
      { lead_id := "x", repo := "x", issue_title := "x", recipient_name := "x",
        recipient_email := none, persona_name := "x", persona_title := "x",
        persona_from_email := "x", message_style := "casual" }).success = true := by
  exact ⟨by decide, by decide, by decide⟩

/-- A DRAFT row that needs no approval, exactly what the claim says the
single-send endpoint must move to QUEUED. -/
def recC4 : OutreachRec :=
  { id := "o4", dataset_id := none, requester_email := "req@lab.org",
    requester_name := "Req", contact_email := "c4@y.org", contact_name := "C",
    status := "draft", email_subject := "s", email_body := "b",
    thread_id := none, message_id := none, approval_required := false,
    approved_at := none, approved_by := none, sent_at := none,
    replied_at := none, created_at := 7 }

/-- Database holding only `recC4`. -/
def dbC4 : DB := { outreach := [recC4], leads := [] }

/-- C4: the single-send endpoint on an existing DRAFT row.  Line 130's
membership list evaluates `OutreachStatus.FAILED`, which raises, so the
endpoint 500s for every existing row: the DRAFT row is never moved to
QUEUED, nothing is scheduled, the state is unchanged.  (Independently, the
endpoint contains no `approval_required` check at all.) -/
theorem send_endpoint_attribute_error :
    send_outreach_request dbC4 "o4" =
      (dbC4, [], .error (.attrError "OutreachStatus" "FAILED")) ∧
    dbC4.outreach.map (fun r => r.status) = [OutreachStatus.draft.value] := by
  exact ⟨rfl, by decide⟩

/-! ## Claim C2: bulk send -/

/-- The spec's sendable-status set {DRAFT, FAILED}, as string values. -/
def claimSendableStatuses : List String := ["draft", "failed"]

/-- The three rows of the spec's bulk-send scenario: "a" and "c" DRAFT,
"b" SENT (not sendable). -/
def recA : OutreachRec :=
  { id := "a", dataset_id := none, requester_email := "req@lab.org",
    requester_name := "Req", contact_email := "a@y.org", contact_name := "A",
    status := "draft", email_subject := "s", email_body := "b",
    thread_id := none, message_id := none, approval_required := false,
    approved_at := none, approved_by := none, sent_at := none,
    replied_at := none, created_at := 1 }

/-- Row "b" of the scenario, already SENT. -/
def recB : OutreachRec :=
  { recA with id := "b", contact_email := "b@y.org", status := "sent" }

/-- Row "c" of the scenario. -/
def recC : OutreachRec :=
  { recA with id := "c", contact_email := "c@y.org" }

/-- Database of the scenario. -/
def dbC2 : DB := { outreach := [recA, recB, recC], leads := [] }

/-- C2, counterexample.  `bulkSend(["a","b","c"])` with "b" outside
{DRAFT, FAILED} does abort the whole batch with no state change and no
scheduled send, but *not* by naming the offending ids: evaluating the
status membership list raises on `OutreachStatus.FAILED`, so the caller
gets a generic 500 whose detail names no id ("b" is not reported). -/
theorem bulk_send_does_not_name_ids :
    send_bulk_outreach dbC2 ["a", "b", "c"] =
      (dbC2, [], .error (.pyError (.attributeError "OutreachStatus" "FAILED"))) ∧
    BulkReject.namedIds (.pyError (.attributeError "OutreachStatus" "FAILED")) = [] ∧
    claimSendableStatuses.contains recB.status = false := by
  exact ⟨rfl, rfl, by decide⟩

/-! ## Claim C7: the dedup guard -/

/-- An existing outreach row to `dup@y.org` created at time 1000. -/
def recC7 : OutreachRec :=
  { recA with id := "o7", contact_email := "dup@y.org", created_at := 1000 }

/-- Database holding only `recC7`. -/
def dbC7 : DB := { outreach := [recC7], leads := [] }

/-- A creation payload for the same `dup@y.org` contact. -/
def inpC7 : OutreachCreateInput :=
  { dataset_id := none, requester_email := "r@l.org", requester_name := "R",
    contact_email := "dup@y.org", contact_name := "D",
    email_subject := "s", email_body := "b", approval_required := false }

/-- C7, counterexample.  The API creation endpoint applies no dedup guard:
creating a second OutreachRequest to `dup@y.org` one day after `recC7`
(well inside the trailing 7-day window) silently succeeds, leaving two
records for the same contact, with no rejection and no flag. -/
theorem create_endpoint_no_dedup :
    ((create_outreach_request dbC7 inpC7 "o7b" 87400).1.outreach.filter
      (fun r => r.contact_email == "dup@y.org")).length = 2 ∧
    (create_outreach_request dbC7 inpC7 "o7b" 87400).2.status = OutreachStatus.draft.value ∧
    (create_outreach_request dbC7 inpC7 "o7b" 87400).2.approval_required = false ∧
    87400 - 7 * 86400 ≤ recC7.created_at := by
  exact ⟨by decide, by decide, by decide, by decide⟩

/-- C7, amended.  Only the automated-outreach task enforces the 7-day dedup
window: whenever any outreach row to the lead's address was created within
the trailing 7 days, `send_automated_outreach` returns the
"Recent outreach already exists" skip before any side effect — no row is
created, no mailer call is made, the state is unchanged. -/
theorem automated_outreach_dedup (ext : Ext) (st : Settings) (db : DB)
    (lead_id newId : String) (now : Nat) (lead : LeadRec) (email : String)
    (hl : db.leads.find? (fun l => l.id == lead_id) = some lead)
    (he : truthy lead.email = some email)
    (hr : ∃ r ∈ db.outreach, r.contact_email = email ∧ now - 7 * 86400 ≤ r.created_at) :
    send_automated_outreach ext st db lead_id newId now =
      (db, [], { success := false, error := some "Recent outreach already exists", skip := true }) := by
  obtain ⟨r, hmem, hce, hct⟩ := hr
  have hsome : (db.outreach.find? (fun x =>
      x.contact_email == email && decide (now - 7 * 86400 ≤ x.created_at))).isSome := by
    rw [List.find?_isSome]
    exact ⟨r, hmem, by simp [hce, hct]⟩
  cases hfind : db.outreach.find? (fun x =>
      x.contact_email == email && decide (now - 7 * 86400 ≤ x.created_at)) with
  | none => rw [hfind] at hsome; simp at hsome
  | some x => simp only [send_automated_outreach, hl, he, hfind]

/-- A qualified lead whose address matches `recC7`. -/
def leadC7 : LeadRec :=
  { id := "l7", repo := "scverse/scanpy", issue_title := "install problem",
    user_login := "dup_user", email := some "dup@y.org", stage := "enriched" }

/-- Database holding `recC7` (created at 1000) and `leadC7`. -/
def dbC7b : DB := { outreach := [recC7], leads := [leadC7] }

/-- C7 amended, witness: one day after `recC7` the automated task skips the
lead with "Recent outreach already exists" and leaves the state unchanged. -/
theorem automated_outreach_dedup_witness :
    send_automated_outreach extDummy { AUTOMATED_OUTREACH_ENABLED := false } dbC7b "l7" "new7" 87400 =
      (dbC7b, [], { success := false, error := some "Recent outreach already exists", skip := true }) :=
  automated_outreach_dedup extDummy { AUTOMATED_OUTREACH_ENABLED := false } dbC7b "l7" "new7" 87400
    leadC7 "dup@y.org" (by decide) (by decide)
    ⟨recC7, by decide, by decide, by decide⟩

/-- C2, amended.  For a batch of at most 50 ids (over a database with
unique primary keys), any violation — a nonexistent id, a referenced record
with status outside {draft, failed}, or a record gated by unmet approval —
rejects the whole call with *no* status change and *no* send attempted or
scheduled; but the rejection does not always name the offending ids: a
nonexistent id yields the 400 "Some outreach requests not found" (no ids),
and the status/approval violations are never reported as such because the
validation loop's `OutreachStatus.FAILED` access raises first, producing a
generic 500. -/
theorem bulk_send_rejects_whole_batch (db : DB) (ids : List String)
    (hnd : (db.outreach.map (fun r => r.id)).Nodup)
    (hlen : ids.length ≤ 50)
    (hviol :
      (∃ i ∈ ids, ∀ r ∈ db.outreach, r.id ≠ i) ∨
      (∃ r ∈ db.outreach, r.id ∈ ids ∧ ¬ (r.status = "draft" ∨ r.status = "failed")) ∨
      (∃ r ∈ db.outreach, r.id ∈ ids ∧ r.approval_required = true ∧ r.approved_at = none)) :
    ∃ e : BulkReject, send_bulk_outreach db ids = (db, [], .error e) := by
  have hgt : ¬ (ids.length > 50) := by omega
  by_cases hl : (db.outreach.filter (fun r => ids.contains r.id)).length = ids.length
  · have hne : db.outreach.filter (fun r => ids.contains r.id) ≠ [] := by
      rcases hviol with ⟨i, hi, hmiss⟩ | ⟨r, hmem, hin, _⟩ | ⟨r, hmem, hin, _, _⟩
      · exfalso
        have hsubl : List.Sublist
            ((db.outreach.filter (fun r => ids.contains r.id)).map (fun r => r.id))
            (db.outreach.map (fun r => r.id)) :=
          (List.filter_sublist _).map _
        have hnodup : ((db.outreach.filter (fun r => ids.contains r.id)).map (fun r => r.id)).Nodup :=
          List.Nodup.sublist hsubl hnd
        have hsubset : (db.outreach.filter (fun r => ids.contains r.id)).map (fun r => r.id) ⊆
            ids.erase i := by
          intro x hx
          obtain ⟨r, hr, rfl⟩ := List.mem_map.mp hx
          have hrdb : r ∈ db.outreach := (List.mem_filter.mp hr).1
          have hrid : r.id ∈ ids := by
            have := (List.mem_filter.mp hr).2
            simpa using this
          exact (List.mem_erase_of_ne (hmiss r hrdb)).mpr hrid
        have hle : (db.outreach.filter (fun r => ids.contains r.id)).length ≤
            (ids.erase i).length := by
          have := (hnodup.subperm hsubset).length_le
          simpa using this
        have herase : (ids.erase i).length = ids.length - 1 := List.length_erase_of_mem hi
        have hpos : 0 < ids.length := List.length_pos_of_mem hi
        omega
      · refine List.ne_nil_of_mem (a := r) (List.mem_filter.mpr ⟨hmem, ?_⟩)
        simpa using hin
      · refine List.ne_nil_of_mem (a := r) (List.mem_filter.mpr ⟨hmem, ?_⟩)
        simpa using hin
    obtain ⟨x, xs, hxx⟩ := List.exists_cons_of_ne_nil hne
    refine ⟨.pyError (.attributeError "OutreachStatus" "FAILED"), ?_⟩
    have hc : collectInvalidStatus (x :: xs) = .error (.attributeError "OutreachStatus" "FAILED") := rfl
    simp only [send_bulk_outreach]
    rw [if_neg hgt, if_neg (fun hcon => hcon hl), hxx, hc]
  · refine ⟨.someNotFound, ?_⟩
    simp only [send_bulk_outreach]
    rw [if_neg hgt, if_pos hl]

/-- C2 amended, witness: the spec's own scenario `["a","b","c"]` with "b"
SENT is rejected wholesale on `dbC2` with no state change and nothing
scheduled. -/
theorem bulk_send_rejects_whole_batch_witness :
    ∃ e : BulkReject, send_bulk_outreach dbC2 ["a", "b", "c"] = (dbC2, [], .error e) :=
  bulk_send_rejects_whole_batch dbC2 ["a", "b", "c"] (by decide) (by decide)
    (Or.inr (Or.inl ⟨recB, by decide, by decide, by decide⟩))

/-! ## Claim C10: the status vocabulary -/

/-- Every stored outreach row carries one of the six enum values. -/
def ValidStatuses (db : DB) : Prop :=
  ∀ r ∈ db.outreach, r.status ∈ allowedStatusValues

instance (db : DB) : Decidable (ValidStatuses db) :=
  inferInstanceAs (Decidable (∀ r ∈ db.outreach, r.status ∈ allowedStatusValues))

/-- The single-send endpoint can never change the state or schedule a task:
every path either 404s or raises on `OutreachStatus.FAILED`. -/
theorem send_outreach_request_inert (db : DB) (oid : String) :
    (send_outreach_request db oid).1 = db ∧ (send_outreach_request db oid).2.1 = [] := by
  simp only [send_outreach_request]
  cases hfind : db.outreach.find? (fun r => r.id == oid) with
  | none => exact ⟨rfl, rfl⟩
  | some r => exact ⟨rfl, rfl⟩

/-- Updating one row preserves status validity when the update does. -/
theorem validStatuses_update (db : DB) (oid : String) (f : OutreachRec → OutreachRec)
    (h : ValidStatuses db)
    (hf : ∀ r, r.status ∈ allowedStatusValues → (f r).status ∈ allowedStatusValues) :
    ValidStatuses (db.updateOutreach oid f) := by
  intro r hr
  simp only [DB.updateOutreach] at hr
  obtain ⟨x, hx, hgx⟩ := List.mem_map.mp hr
  by_cases hxi : x.id = oid
  · rw [← hgx, if_pos hxi]
    exact hf x (h x hx)
  · rw [← hgx, if_neg hxi]
    exact h x hx

/-- The received handler writes only the "replied" status. -/
theorem handle_received_valid (db : DB) (p : EventPayload) (now : Nat)
    (h : ValidStatuses db) : ValidStatuses (handle_message_received db p now) := by
  unfold handle_message_received
  cases hm : webhookReceiveMatch db p with
  | none => exact h
  | some o =>
    refine validStatuses_update db o.id _ h (fun r _ => ?_)
    simp [receivedUpdate, OutreachStatus.value, allowedStatusValues]

/-- The delivered handler writes only the "delivered" status. -/
theorem handle_delivered_valid (db : DB) (p : EventPayload)
    (h : ValidStatuses db) : ValidStatuses (handle_message_delivered db p) := by
  unfold handle_message_delivered
  cases hm : webhookDeliveredMatch db p with
  | none => exact h
  | some o =>
    refine validStatuses_update db o.id _ h (fun r _ => ?_)
    simp [OutreachStatus.value, allowedStatusValues]

/-- The bounced handler writes only the "closed" status. -/
theorem handle_bounced_valid (db : DB) (p : EventPayload)
    (h : ValidStatuses db) : ValidStatuses (handle_message_bounced db p) := by
  unfold handle_message_bounced
  cases hm : webhookBouncedMatch db p with
  | none => exact h
  | some o =>
    refine validStatuses_update db o.id _ h (fun r _ => ?_)
    simp [OutreachStatus.value, allowedStatusValues]

/-- Dispatching any webhook event preserves status validity. -/
theorem webhookDispatch_valid (db : DB) (parsed : Option EventPayload) (now : Nat)
    (h : ValidStatuses db) : ValidStatuses (webhookDispatch db parsed now).1 := by
  unfold webhookDispatch
  cases parsed with
  | none => exact h
  | some p =>
    dsimp only
    split
    · exact handle_received_valid db p now h
    · split
      · exact handle_delivered_valid db p h
      · split
        · exact handle_bounced_valid db p h
        · exact h

/-- `_send_lead_outreach` never changes the row's status. -/
theorem send_lead_outreach_status (ext : Ext) (lead : LeadRec) (persona : Persona)
    (o : OutreachRec) : (send_lead_outreach ext lead persona o).1.status = o.status := by
  unfold send_lead_outreach
  dsimp only
  split <;> rfl

/-- The `status` of the automated-outreach row is DRAFT. -/
theorem automated_row_status (persona : Persona) (lead : LeadRec) (email : String)
    (st : Settings) (newId : String) (now : Nat) :
    (automated_outreach_row persona lead email st newId now).status =
      OutreachStatus.draft.value := rfl

/-- Creation only adds a DRAFT row. -/
theorem create_outreach_request_valid (db : DB) (inp : OutreachCreateInput)
    (newId : String) (now : Nat) (h : ValidStatuses db) :
    ValidStatuses (create_outreach_request db inp newId now).1 := by
  intro r hr
  rcases List.mem_append.mp hr with h1 | h1
  · exact h r h1
  · rw [List.mem_singleton.mp h1]
    show OutreachStatus.draft.value ∈ allowedStatusValues
    decide

/-- Approval writes at most the "queued" status. -/
theorem approve_outreach_request_valid (db : DB) (oid approver : String) (now : Nat)
    (h : ValidStatuses db) : ValidStatuses (approve_outreach_request db oid approver now).1 := by
  unfold approve_outreach_request
  cases hfind : db.outreach.find? (fun r => r.id == oid) with
  | none => exact h
  | some r =>
    dsimp only
    split
    · exact h
    · split
      · exact h
      · refine validStatuses_update db r.id _ h (fun x hx => ?_)
        dsimp only
        split
        · show OutreachStatus.queued.value ∈ allowedStatusValues
          decide
        · exact hx

/-- Bulk send writes at most the "queued" status. -/
theorem send_bulk_outreach_valid (db : DB) (ids : List String)
    (h : ValidStatuses db) : ValidStatuses (send_bulk_outreach db ids).1 := by
  unfold send_bulk_outreach
  dsimp only
  split
  · exact h
  · split
    · exact h
    · split
      · exact h
      · split
        · exact h
        · split
          · exact h
          · intro r hr
            obtain ⟨x, hx, hgx⟩ := List.mem_map.mp hr
            by_cases hc : ids.contains x.id = true
            · rw [← hgx, if_pos hc]
              show OutreachStatus.queued.value ∈ allowedStatusValues
              decide
            · rw [← hgx, if_neg hc]
              exact h x hx

/-- The webhook endpoint preserves status validity on every path. -/
theorem handle_agentmail_webhook_valid (ext : Ext) (db : DB)
    (secret sig : Option String) (body : List Nat) (parsed : Option EventPayload)
    (now : Nat) (h : ValidStatuses db) :
    ValidStatuses (handle_agentmail_webhook ext db secret sig body parsed now).1 := by
  unfold handle_agentmail_webhook
  cases secret with
  | none => exact webhookDispatch_valid db parsed now h
  | some sec =>
    dsimp only
    split
    · exact webhookDispatch_valid db parsed now h
    · exact h

/-- The monitoring reply processor writes at most the "replied" status. -/
theorem process_single_email_reply_valid (db : DB) (msg : MsgData)
    (oid : Option String) (now : Nat) (h : ValidStatuses db) :
    ValidStatuses (process_single_email_reply db msg oid now).1 := by
  unfold process_single_email_reply
  cases hm : monitorMatch db msg oid with
  | none => exact h
  | some o =>
    dsimp only [DB.updateOutreach]
    split
    · exact h
    · intro x hx
      obtain ⟨y, hy, hgy⟩ := List.mem_map.mp hx
      by_cases hyi : y.id = o.id
      · rw [← hgy, if_pos hyi]
        show OutreachStatus.replied.value ∈ allowedStatusValues
        decide
      · rw [← hgy, if_neg hyi]
        exact h y hy

/-- The queue drain is inert: no state change, no mailer call, no record
ever processed. -/
theorem process_outreach_queue_inert (ext : Ext) (db : DB) (now : Nat) :
    (process_outreach_queue ext db now).1 = db ∧
    (process_outreach_queue ext db now).2.1 = [] ∧
    (process_outreach_queue ext db now).2.2.processed = 0 := by
  by_cases hq : (sortByCreated (db.outreach.filter
      (fun r => r.status == OutreachStatus.queued.value))).take 10 = []
  · have he : process_outreach_queue ext db now =
        (db, [], { status := "no_work", processed := 0, errors := 0 }) := by
      unfold process_outreach_queue
      dsimp only
      rw [if_pos hq]
    rw [he]
    exact ⟨rfl, rfl, rfl⟩
  · obtain ⟨e', hfold⟩ := drain_foldl_inert ext now
      ((sortByCreated (db.outreach.filter
        (fun r => r.status == OutreachStatus.queued.value))).take 10) db [] 0 0
    have he : process_outreach_queue ext db now =
        (db, [], { status := "completed", processed := 0, errors := e' }) := by
      unfold process_outreach_queue
      dsimp only
      rw [if_neg hq, hfold]
    rw [he]
    exact ⟨rfl, rfl, rfl⟩

/-- The automated-outreach task adds a DRAFT row, and the invite send never
changes a status. -/
theorem send_automated_outreach_valid (ext : Ext) (st : Settings) (db : DB)
    (lid nid : String) (now : Nat) (h : ValidStatuses db) :
    ValidStatuses (send_automated_outreach ext st db lid nid now).1 := by
  unfold send_automated_outreach
  cases h1 : db.leads.find? (fun l => l.id == lid) with
  | none => exact h
  | some lead =>
    dsimp only
    cases h2 : truthy lead.email with
    | none => exact h
    | some email =>
      dsimp only
      cases h3 : db.outreach.find? (fun r =>
          r.contact_email == email && decide (now - 7 * 86400 ≤ r.created_at)) with
      | some x => exact h
      | none =>
        dsimp only
        have hv2 : ValidStatuses
            (({ db with outreach := db.outreach ++
                [automated_outreach_row (ext.select_persona
                  { repo := lead.repo, issue_title := lead.issue_title,
                    user_login := lead.user_login }) lead email st nid now] } : DB).updateOutreach
              nid (fun _ => (send_lead_outreach ext lead
                (ext.select_persona
                  { repo := lead.repo, issue_title := lead.issue_title,
                    user_login := lead.user_login })
                (automated_outreach_row (ext.select_persona
                  { repo := lead.repo, issue_title := lead.issue_title,
                    user_login := lead.user_login }) lead email st nid now)).1)) := by
          refine validStatuses_update _ _ _ ?_ ?_
          · intro r hr
            rcases List.mem_append.mp hr with hmem | hmem
            · exact h r hmem
            · rw [List.mem_singleton.mp hmem, automated_row_status]
              decide
          · intro r _
            rw [send_lead_outreach_status, automated_row_status]
            decide
        split
        · exact fun r hr => hv2 r hr
        · exact hv2

/-- C10.  The persisted outreach status vocabulary is exactly
{draft, queued, sent, delivered, replied, closed}: the enum has no SENDING
and no FAILED member, so `OutreachStatus.SENDING` / `OutreachStatus.FAILED`
accesses raise AttributeError; consequently `_send_outreach_email` raises
for *every* input (state unchanged, no mailer call), the queue drain never
changes the state, never calls the mailer and never marks a record
processed, the single-send endpoint never changes the state and never
schedules, and every modelled operation maps a store whose statuses lie in
the six values to another such store — no stored record ever carries
"sending" or "failed". -/
theorem outreach_status_enum_gap :
    OutreachStatus.attr "SENDING" = none ∧
    OutreachStatus.attr "FAILED" = none ∧
    (∀ s : OutreachStatus, s.value ∈ allowedStatusValues) ∧
    (∀ v ∈ allowedStatusValues, ∃ s : OutreachStatus, s.value = v) ∧
    (∀ (ext : Ext) (db : DB) (o : OutreachRec) (now : Nat),
      send_outreach_email ext db o now =
        (db, [], .error (.attributeError "OutreachStatus" "FAILED"))) ∧
    (∀ (ext : Ext) (db : DB) (now : Nat),
      (process_outreach_queue ext db now).1 = db ∧
      (process_outreach_queue ext db now).2.1 = [] ∧
      (process_outreach_queue ext db now).2.2.processed = 0) ∧
    (∀ (db : DB) (oid : String),
      (send_outreach_request db oid).1 = db ∧ (send_outreach_request db oid).2.1 = []) ∧
    (∀ (db : DB) (inp : OutreachCreateInput) (newId : String) (now : Nat),
      ValidStatuses db → ValidStatuses (create_outreach_request db inp newId now).1) ∧
    (∀ (db : DB) (oid approver : String) (now : Nat),
      ValidStatuses db → ValidStatuses (approve_outreach_request db oid approver now).1) ∧
    (∀ (db : DB) (ids : List String),
      ValidStatuses db → ValidStatuses (send_bulk_outreach db ids).1) ∧
    (∀ (ext : Ext) (db : DB) (secret sig : Option String) (body : List Nat)
      (parsed : Option EventPayload) (now : Nat),
      ValidStatuses db →
      ValidStatuses (handle_agentmail_webhook ext db secret sig body parsed now).1) ∧
    (∀ (db : DB) (msg : MsgData) (oid : Option String) (now : Nat),
      ValidStatuses db → ValidStatuses (process_single_email_reply db msg oid now).1) ∧
    (∀ (ext : Ext) (st : Settings) (db : DB) (lid nid : String) (now : Nat),
      ValidStatuses db → ValidStatuses (send_automated_outreach ext st db lid nid now).1) := by
  refine ⟨rfl, rfl, ?_, ?_, send_outreach_email_always_fails, process_outreach_queue_inert,
    send_outreach_request_inert,
    create_outreach_request_valid, approve_outreach_request_valid, send_bulk_outreach_valid,
    handle_agentmail_webhook_valid, process_single_email_reply_valid,
    send_automated_outreach_valid⟩
  · intro s
    cases s <;> decide
  · intro v hv
    simp only [allowedStatusValues, List.mem_cons, List.not_mem_nil, or_false] at hv
    rcases hv with rfl | rfl | rfl | rfl | rfl | rfl
    · exact ⟨.draft, rfl⟩
    · exact ⟨.queued, rfl⟩
    · exact ⟨.sent, rfl⟩
    · exact ⟨.delivered, rfl⟩
    · exact ⟨.replied, rfl⟩
    · exact ⟨.closed, rfl⟩

/-- C10, witness: the preservation conjuncts instantiated on the concrete
store `dbC1` (whose single row is "queued"). -/
theorem outreach_status_enum_gap_witness :
    ValidStatuses dbC1 ∧
    ValidStatuses (create_outreach_request dbC1 inpC7 "w1" 5).1 ∧
    ValidStatuses (approve_outreach_request dbC1 "q1" "boss@x.org" 9).1 ∧
    ValidStatuses (send_bulk_outreach dbC1 ["q1"]).1 ∧
    ValidStatuses (handle_agentmail_webhook extDummy dbC1 none none [] none 0).1 ∧
    ValidStatuses (process_single_email_reply dbC1 msgC3 none 0).1 ∧
    ValidStatuses (send_automated_outreach extDummy { AUTOMATED_OUTREACH_ENABLED := true } dbC1 "nolead" "w2" 0).1 :=
  ⟨by decide,
   outreach_status_enum_gap.2.2.2.2.2.2.2.1 dbC1 inpC7 "w1" 5 (by decide),
   outreach_status_enum_gap.2.2.2.2.2.2.2.2.1 dbC1 "q1" "boss@x.org" 9 (by decide),
   outreach_status_enum_gap.2.2.2.2.2.2.2.2.2.1 dbC1 ["q1"] (by decide),
   outreach_status_enum_gap.2.2.2.2.2.2.2.2.2.2.1 extDummy dbC1 none none [] none 0 (by decide),
   outreach_status_enum_gap.2.2.2.2.2.2.2.2.2.2.2.1 dbC1 msgC3 none 0 (by decide),
   outreach_status_enum_gap.2.2.2.2.2.2.2.2.2.2.2.2 extDummy { AUTOMATED_OUTREACH_ENABLED := true } dbC1 "nolead" "w2" 0 (by decide)⟩

end Biodata
